import Mathlib

/-!
Verification of the TrackFlow provisioning script (src/trackflow/install.py).

The script runs against the Frappe record store.  We model the store as an
explicit structure holding the records the script reads or writes: the
installed-application list, the DocType registry, Role / Custom Field /
Property Setter / DocPerm records, the TrackFlow Settings singleton, the
Website Settings head_html field, the links of the Workspace named CRM,
the set of submittable DocTypes, and the error log written by
frappe.log_error.  Frappe calls that may raise (reload_doctype, the insert
of the Internal IP Range DocType, the insert of the settings singleton,
Website Settings save, Workspace save) are modelled as fallible primitives
whose failure is decided by an Oracle; a failing primitive returns an
Except.error carrying the store as it stands at the raise, and the try /
except blocks of the source are modelled by matching on that error.
Python strings are modelled by String; the Python substring operator (in)
is modelled by strContains on the underlying character lists.
-/

set_option maxRecDepth 100000

deriving instance DecidableEq for Except

namespace TrackFlow

/-- Substring test on character lists, mirroring the Python operator (in):
pat occurs somewhere in the scanned list. -/
def strContains (pat : List Char) : List Char → Bool
  | [] => pat.isEmpty
  | c :: rest => pat.isPrefixOf (c :: rest) || strContains pat rest

/-- Number of (possibly overlapping) positions at which pat occurs. -/
def countOccs (pat : List Char) : List Char → Nat
  | [] => 0
  | c :: rest => (if pat.isPrefixOf (c :: rest) then 1 else 0) + countOccs pat rest

/-- Python substring operator on String. -/
def pyContains (pat s : String) : Bool := strContains pat.data s.data

/-- Occurrence count on String. -/
def countOccsS (pat s : String) : Nat := countOccs pat.data s.data

/-- Check on a pattern: no suffix of the pattern that starts right after a
newline character is a prefix of the pattern.  A pattern with this property
cannot straddle the boundary when it is appended after a newline. -/
def resumeFree (full : List Char) : List Char → Bool
  | [] => true
  | c :: rest => (if c = '\n' then !(rest.isPrefixOf full) else true) && resumeFree full rest

/-- A nested IP-range row of the settings singleton. -/
structure IPRange where
  ip_range : String
  description : String
deriving DecidableEq

/-- The TrackFlow Settings singleton record, with the fields populated by
create_trackflow_settings. -/
structure TrackFlowSettings where
  enable_tracking : Nat
  auto_generate_short_codes : Nat
  short_code_length : Nat
  exclude_internal_traffic : Nat
  gdpr_compliance_enabled : Nat
  cookie_expires_days : Nat
  default_attribution_model : String
  attribution_window_days : Nat
  cookie_consent_required : Nat
  cookie_consent_text : String
  anonymize_ip_addresses : Nat
  internal_ip_ranges : List IPRange
deriving DecidableEq

/-- A Role record, with the desk flags set by create_roles. -/
structure Role where
  role_name : String
  desk_access : Nat
  two_factor_auth : Nat
  search_bar : Nat
  notifications : Nat
  list_sidebar : Nat
  bulk_actions : Nat
  view_switcher : Nat
  form_sidebar : Nat
  timeline : Nat
  dashboard : Nat
deriving DecidableEq

/-- A field definition from the custom_fields table of
create_fcrm_custom_fields; keys absent from the Python dict keep their
neutral default here. -/
structure FieldDef where
  fieldname : String
  label : String
  fieldtype : String
  insert_after : String
  options : Option String := none
  read_only : Nat := 0
  hidden : Nat := 0
  default : Option String := none
  depends_on : Option String := none
deriving DecidableEq

/-- A Custom Field record: owning DocType (cf.dt) plus the field definition;
its record name is derived exactly as in the source. -/
structure CustomField where
  dt : String
  field : FieldDef
deriving DecidableEq

/-- The name key of a Custom Field record, f-string "{doctype}-{fieldname}". -/
def CustomField.name (c : CustomField) : String := c.dt ++ "-" ++ c.field.fieldname

/-- A Property Setter record as built by create_fcrm_property_setters. -/
structure PropertySetter where
  doc_type : String
  doctype_or_field : String
  property : String
  value : String
  property_type : String
deriving DecidableEq

/-- The name key of a Property Setter, f-string "{doc_type}-main-{property}". -/
def PropertySetter.ps_name (p : PropertySetter) : String :=
  p.doc_type ++ "-main-" ++ p.property

/-- A DocPerm record as built by setup_permissions. -/
structure DocPerm where
  parent : String
  parenttype : String
  parentfield : String
  role : String
  read : Nat
  write : Nat
  create : Nat
  delete : Nat
  submit : Nat
  cancel : Nat
deriving DecidableEq

/-- One entry of a workspace link list; keys absent from the Python dict
(link_type, link_to on the Card Break entry) keep the neutral default. -/
structure LinkEntry where
  type : String
  label : String
  link_type : String := ""
  link_to : String := ""
  hidden : Nat := 0
  onboard : Nat := 0
deriving DecidableEq

/-- The record store the script runs against. -/
structure Store where
  installed_apps : List String
  doctypes : List String
  roles : List Role
  custom_fields : List CustomField
  property_setters : List PropertySetter
  doc_perms : List DocPerm
  settings : Option TrackFlowSettings
  head_html : Option String
  workspace_crm : Option (List LinkEntry)
  submittable : List String
  error_log : List (String × String)
deriving DecidableEq

/-- Failure oracle for the fallible Frappe primitives: each flag decides
whether the corresponding call raises. -/
structure Oracle where
  reload_fails : Bool
  doctype_insert_fails : Bool
  settings_insert_fails : Bool
  website_save_fails : Bool
  workspace_save_fails : Bool
deriving DecidableEq

/-- frappe.log_error(msg, "TrackFlow Install"): append one entry to the
error log under the fixed category label. -/
def logError (msg : String) (s : Store) : Store :=
  { s with error_log := s.error_log ++ [(msg, "TrackFlow Install")] }

/-- Existence check keyed by keyRec, mirroring frappe.db.exists. -/
def hasKey {β κ : Type} [DecidableEq κ] (keyRec : β → κ) (k : κ) (recs : List β) : Bool :=
  recs.any (fun r => decide (keyRec r = k))

/-- The create-if-absent loop shared by the record ensurers: for each item,
if a record with the item's key exists skip it, otherwise insert the built
record at the end. -/
def ensureAll {α β κ : Type} [DecidableEq κ] (keyOf : α → κ) (mk : α → β)
    (keyRec : β → κ) (items : List α) (recs : List β) : List β :=
  items.foldl (fun rs a => if hasKey keyRec (keyOf a) rs then rs else rs ++ [mk a]) recs

/-- ASCII lowercase on one character. -/
def lowerChar (c : Char) : Char :=
  if c.isUpper then Char.ofNat (c.toNat + 32) else c

/-- Python str.lower() as applied to installed-app identifiers (which are
ASCII names). -/
def strLower (s : String) : String := String.mk (s.data.map lowerChar)

/-- The FCRM DocTypes required by check_dependencies. -/
def required_doctypes : List String := ["CRM Lead", "CRM Deal", "CRM Organization"]

/-- The missing-dependency list built by check_dependencies. -/
def missing_items (s : Store) : List String :=
  if (s.installed_apps.map strLower).contains "crm" then
    (required_doctypes.filter (fun dt => !s.doctypes.contains dt)).map
      (fun dt => "FCRM DocType: " ++ dt)
  else ["Frappe CRM"]

/-- check_dependencies: none on success, some aggregated message when it
throws via frappe.throw. -/
def check_dependencies (s : Store) : Option String :=
  let missing := missing_items s
  if missing.isEmpty then none
  else some ("TrackFlow requires the following: " ++ String.intercalate ", " missing)

/-- The two roles created by create_roles. -/
def trackflow_roles : List Role :=
  [ { role_name := "TrackFlow Manager", desk_access := 1, two_factor_auth := 0,
      search_bar := 1, notifications := 1, list_sidebar := 1, bulk_actions := 1,
      view_switcher := 1, form_sidebar := 1, timeline := 1, dashboard := 1 },
    { role_name := "TrackFlow User", desk_access := 1, two_factor_auth := 0,
      search_bar := 1, notifications := 1, list_sidebar := 1, bulk_actions := 0,
      view_switcher := 1, form_sidebar := 1, timeline := 1, dashboard := 1 } ]

/-- create_roles: insert each role whose role_name does not yet exist. -/
def create_roles (s : Store) : Store :=
  { s with roles := ensureAll Role.role_name id Role.role_name trackflow_roles s.roles }

/-- before_install: check_dependencies (aborting the run on a missing
dependency, store unchanged) then create_roles. -/
def before_install (s : Store) : Except (String × Store) Store :=
  match check_dependencies s with
  | some msg => Except.error (msg, s)
  | none => Except.ok (create_roles s)

/-- The custom_fields table of create_fcrm_custom_fields. -/
def custom_fields_table : List (String × List FieldDef) :=
  [ ("CRM Lead",
     [ { fieldname := "trackflow_tab", label := "TrackFlow", fieldtype := "Tab Break",
         insert_after := "notes_tab" },
       { fieldname := "trackflow_visitor_id", label := "TrackFlow Visitor ID",
         fieldtype := "Data", insert_after := "trackflow_tab", read_only := 1 },
       { fieldname := "trackflow_source", label := "Source", fieldtype := "Data",
         insert_after := "trackflow_visitor_id" },
       { fieldname := "trackflow_medium", label := "Medium", fieldtype := "Data",
         insert_after := "trackflow_source" },
       { fieldname := "trackflow_campaign", label := "Campaign", fieldtype := "Link",
         options := some "Link Campaign", insert_after := "trackflow_medium" },
       { fieldname := "trackflow_first_touch_date", label := "First Touch Date",
         fieldtype := "Datetime", insert_after := "trackflow_campaign", read_only := 1 },
       { fieldname := "trackflow_last_touch_date", label := "Last Touch Date",
         fieldtype := "Datetime", insert_after := "trackflow_first_touch_date",
         read_only := 1 },
       { fieldname := "trackflow_touch_count", label := "Touch Count",
         fieldtype := "Int", insert_after := "trackflow_last_touch_date",
         read_only := 1 } ]),
    ("CRM Organization",
     [ { fieldname := "trackflow_tab", label := "TrackFlow", fieldtype := "Tab Break",
         insert_after := "notes" },
       { fieldname := "trackflow_visitor_id", label := "TrackFlow Visitor ID",
         fieldtype := "Data", insert_after := "trackflow_tab", read_only := 1 },
       { fieldname := "trackflow_engagement_score", label := "Engagement Score",
         fieldtype := "Int", insert_after := "trackflow_visitor_id", read_only := 1 },
       { fieldname := "trackflow_last_campaign", label := "Last Campaign",
         fieldtype := "Link", options := some "Link Campaign",
         insert_after := "trackflow_engagement_score" } ]),
    ("CRM Deal",
     [ { fieldname := "trackflow_tab", label := "TrackFlow Attribution",
         fieldtype := "Tab Break", insert_after := "contact_tab" },
       { fieldname := "trackflow_attribution_model", label := "Attribution Model",
         fieldtype := "Select",
         options := some "Last Touch\nFirst Touch\nLinear\nTime Decay\nPosition Based",
         insert_after := "trackflow_tab", default := some "Last Touch" },
       { fieldname := "trackflow_first_touch_source", label := "First Touch Source",
         fieldtype := "Data", insert_after := "trackflow_attribution_model",
         read_only := 1 },
       { fieldname := "trackflow_last_touch_source", label := "Last Touch Source",
         fieldtype := "Data", insert_after := "trackflow_first_touch_source",
         read_only := 1 },
       { fieldname := "trackflow_marketing_influenced", label := "Marketing Influenced",
         fieldtype := "Check", insert_after := "trackflow_last_touch_source",
         read_only := 1 },
       { fieldname := "trackflow_attribution_data", label := "Attribution Data",
         fieldtype := "Long Text", insert_after := "trackflow_marketing_influenced",
         read_only := 1, hidden := 1 } ]),
    ("Web Form",
     [ { fieldname := "trackflow_section", label := "TrackFlow Settings",
         fieldtype := "Section Break", insert_after := "custom_css" },
       { fieldname := "trackflow_tracking_enabled", label := "Enable TrackFlow Tracking",
         fieldtype := "Check", insert_after := "trackflow_section" },
       { fieldname := "trackflow_conversion_goal", label := "Conversion Goal",
         fieldtype := "Link", options := some "Link Campaign",
         insert_after := "trackflow_tracking_enabled",
         depends_on := some "trackflow_tracking_enabled" } ]) ]

/-- The Custom Field name key for a field of an owning DocType. -/
def cfKey (dt : String) (f : FieldDef) : String := dt ++ "-" ++ f.fieldname

/-- The per-DocType body of create_fcrm_custom_fields: only processed when
the owning DocType exists in the store; each field is inserted unless its
name key already exists. -/
def apply_custom_fields (dt : String) (fs : List FieldDef) (s : Store) : Store :=
  if s.doctypes.contains dt then
    let cfs := ensureAll (cfKey dt) (fun f => CustomField.mk dt f) CustomField.name fs s.custom_fields
    { s with custom_fields := cfs }
  else s

/-- The outer loop of create_fcrm_custom_fields over the table. -/
def processTable : List (String × List FieldDef) → Store → Store
  | [], s => s
  | p :: rest, s => processTable rest (apply_custom_fields p.1 p.2 s)

/-- create_fcrm_custom_fields. -/
def create_fcrm_custom_fields (s : Store) : Store := processTable custom_fields_table s

/-- The property_setters table of create_fcrm_property_setters. -/
def property_setters_table : List PropertySetter :=
  [ { doc_type := "CRM Lead", doctype_or_field := "DocType", property := "track_changes",
      value := "1", property_type := "Check" },
    { doc_type := "CRM Deal", doctype_or_field := "DocType", property := "track_changes",
      value := "1", property_type := "Check" },
    { doc_type := "CRM Organization", doctype_or_field := "DocType",
      property := "track_changes", value := "1", property_type := "Check" } ]

/-- create_fcrm_property_setters: insert each property setter whose name key
does not yet exist. -/
def create_fcrm_property_setters (s : Store) : Store :=
  let pss := ensureAll PropertySetter.ps_name id PropertySetter.ps_name property_setters_table s.property_setters
  { s with property_setters := pss }

/-- The in-memory attribution-model reference list of create_default_data;
the source never persists it. -/
def attribution_models : List (String × String) :=
  [ ("Last Touch", "100% credit to the last touchpoint"),
    ("First Touch", "100% credit to the first touchpoint"),
    ("Linear", "Equal credit to all touchpoints"),
    ("Time Decay", "More credit to recent touchpoints"),
    ("Position Based", "40% first, 40% last, 20% middle") ]

/-- The in-memory campaign-type reference list of create_default_data;
the source never persists it. -/
def campaign_types : List (String × String) :=
  [ ("Email Marketing", "Email campaigns and newsletters"),
    ("Social Media", "Social media marketing campaigns"),
    ("Search Marketing", "SEM and SEO campaigns"),
    ("Content Marketing", "Blog posts and content campaigns"),
    ("Event Marketing", "Webinars, trade shows, and events"),
    ("Partner Marketing", "Partner and affiliate campaigns") ]

/-- create_default_data only builds the in-memory lists above and prints;
it performs no store mutation. -/
def create_default_data (s : Store) : Store := s

/-- frappe.reload_doctype for Internal IP Range: on success the DocType is
synced into the registry; raises when the oracle says so. -/
def reload_internal_ip_range (o : Oracle) (s : Store) : Except (String × Store) Store :=
  if o.reload_fails then Except.error ("reload error", s)
  else Except.ok { s with doctypes := s.doctypes ++ ["Internal IP Range"] }

/-- The manual fallback of ensure_internal_ip_range_doctype: building the
Internal IP Range DocType document and inserting it; raises when the oracle
says so. -/
def insert_internal_ip_range_doc (o : Oracle) (s : Store) : Except (String × Store) Store :=
  if o.doctype_insert_fails then Except.error ("insert error", s)
  else Except.ok { s with doctypes := s.doctypes ++ ["Internal IP Range"] }

/-- ensure_internal_ip_range_doctype: no-op if present; else try the reload,
then the manual insert; if both fail, log under TrackFlow Install and
return the failure indicator false instead of raising. -/
def ensure_internal_ip_range_doctype (o : Oracle) (s : Store) :
    Except (String × Store) (Bool × Store) :=
  if s.doctypes.contains "Internal IP Range" then Except.ok (true, s)
  else
    match reload_internal_ip_range o s with
    | Except.ok s1 => Except.ok (true, s1)
    | Except.error (_, s1) =>
      match insert_internal_ip_range_doc o s1 with
      | Except.ok s2 => Except.ok (true, s2)
      | Except.error (e2, s2) =>
        Except.ok (false, logError ("Error creating Internal IP Range DocType: " ++ e2) s2)

/-- The four default internal IP ranges appended to the settings singleton. -/
def default_ranges : List IPRange :=
  [ { ip_range := "127.0.0.0/8", description := "Localhost" },
    { ip_range := "10.0.0.0/8", description := "Private Class A" },
    { ip_range := "172.16.0.0/12", description := "Private Class B" },
    { ip_range := "192.168.0.0/16", description := "Private Class C" } ]

/-- The settings document built by create_trackflow_settings before insert. -/
def default_trackflow_settings : TrackFlowSettings :=
  { enable_tracking := 1, auto_generate_short_codes := 1, short_code_length := 6,
    exclude_internal_traffic := 0, gdpr_compliance_enabled := 1,
    cookie_expires_days := 365, default_attribution_model := "Last Touch",
    attribution_window_days := 30, cookie_consent_required := 1,
    cookie_consent_text := "This site uses cookies for analytics and personalization. By continuing to browse, you agree to our use of cookies.",
    anonymize_ip_addresses := 0, internal_ip_ranges := default_ranges }

/-- settings.insert(ignore_permissions=True): raises when the oracle says so. -/
def insert_trackflow_settings (o : Oracle) (s : Store) : Except (String × Store) Store :=
  if o.settings_insert_fails then Except.error ("settings insert error", s)
  else Except.ok { s with settings := some default_trackflow_settings }

/-- create_trackflow_settings: no-op if the singleton exists; else run the
schema bootstrap and bail out on its failure indicator; else build and
insert the default settings document, logging (not raising) on failure. -/
def create_trackflow_settings (o : Oracle) (s : Store) : Except (String × Store) Store :=
  if s.settings.isSome then Except.ok s
  else
    match ensure_internal_ip_range_doctype o s with
    | Except.error e => Except.error e
    | Except.ok (doctypeExists, s1) =>
      if doctypeExists then
        match insert_trackflow_settings o s1 with
        | Except.ok s2 => Except.ok s2
        | Except.error (e, s2) =>
          Except.ok (logError ("Error creating TrackFlow Settings: " ++ e) s2)
      else Except.ok s1

/-- The fixed candidate list of setup_permissions. -/
def possible_doctypes : List String :=
  [ "Link Campaign", "Tracked Link", "Click Event", "Attribution Model",
    "TrackFlow Settings", "Campaign Goal", "Visitor", "Visitor Event" ]

/-- The DocPerm document built by setup_permissions for one DocType;
submit and cancel follow frappe.get_meta(doctype).is_submittable. -/
def mkDocPerm (s : Store) (doctype : String) : DocPerm :=
  { parent := doctype, parenttype := "DocType", parentfield := "permissions",
    role := "TrackFlow Manager", read := 1, write := 1, create := 1, delete := 1,
    submit := if s.submittable.contains doctype then 1 else 0,
    cancel := if s.submittable.contains doctype then 1 else 0 }

/-- The (parent, role) key of a DocPerm used by the existence check of
setup_permissions. -/
def permKey (p : DocPerm) : String × String := (p.parent, p.role)

/-- setup_permissions: keep the candidate DocTypes present in the store and
create one DocPerm per such DocType for TrackFlow Manager unless one for
that (parent, role) pair exists. -/
def setup_permissions (s : Store) : Store :=
  let existing_doctypes := possible_doctypes.filter (fun dt => s.doctypes.contains dt)
  let perms := ensureAll (fun dt => (dt, "TrackFlow Manager")) (mkDocPerm s) permKey existing_doctypes s.doc_perms
  { s with doc_perms := perms }

/-- The marker script tag appended by enable_tracking. -/
def tracking_script : String :=
  "<!-- TrackFlow Analytics -->\n<script src=\"/api/method/trackflow.api.tracking.get_tracking_script\" async></script>\n<!-- End TrackFlow Analytics -->"

/-- The head_html field read by enable_tracking, with the falsy (None or
empty) value normalised to the empty string as in the source. -/
def headOr (s : Store) : String :=
  match s.head_html with
  | none => ""
  | some h => h

/-- The try-block body of enable_tracking: read Website Settings, and if the
marker script is not a substring of head_html, append it (after a newline)
and save; the save raises when the oracle says so, losing the in-memory
mutation. -/
def enable_tracking_body (o : Oracle) (s : Store) : Except (String × Store) Store :=
  let h0 := headOr s
  if pyContains tracking_script h0 then Except.ok s
  else if o.website_save_fails then Except.error ("website settings save error", s)
  else Except.ok { s with head_html := some (h0 ++ "\n" ++ tracking_script) }

/-- enable_tracking: the body under a try / except that only prints the
error; nothing is logged and nothing is re-raised. -/
def enable_tracking (o : Oracle) (s : Store) : Except (String × Store) Store :=
  match enable_tracking_body o s with
  | Except.ok t => Except.ok t
  | Except.error (_, t) => Except.ok t

/-- The four link entries appended to the CRM workspace: the TrackFlow
Analytics section header and the three links under it. -/
def trackflow_links : List LinkEntry :=
  [ { type := "Card Break", label := "TrackFlow Analytics", hidden := 0, onboard := 0 },
    { type := "Link", link_type := "DocType", link_to := "Link Campaign",
      label := "Campaigns", hidden := 0, onboard := 0 },
    { type := "Link", link_type := "DocType", link_to := "Tracked Link",
      label := "Tracked Links", hidden := 0, onboard := 0 },
    { type := "Link", link_type := "DocType", link_to := "Click Event",
      label := "Click Analytics", hidden := 0, onboard := 0 } ]

/-- The try-block body of setup_crm_integration: if the Workspace named CRM
exists and none of its links is labelled TrackFlow Analytics, append the
four entries and save; the save raises when the oracle says so, losing the
in-memory mutation. -/
def setup_crm_integration_body (o : Oracle) (s : Store) : Except (String × Store) Store :=
  match s.workspace_crm with
  | none => Except.ok s
  | some links =>
    if links.any (fun l => decide (l.label = "TrackFlow Analytics")) then Except.ok s
    else if o.workspace_save_fails then Except.error ("workspace save error", s)
    else Except.ok { s with workspace_crm := some (links ++ trackflow_links) }

/-- setup_crm_integration: the body under a try / except that logs the error
under TrackFlow Install and returns normally. -/
def setup_crm_integration (o : Oracle) (s : Store) : Except (String × Store) Store :=
  match setup_crm_integration_body o s with
  | Except.ok t => Except.ok t
  | Except.error (e, t) =>
    Except.ok (logError ("Error setting up CRM integration: " ++ e) t)

/-- after_install: custom fields, property setters, default data, settings,
permissions, tracking, in the order of the source.  It does not call
setup_crm_integration. -/
def after_install (o : Oracle) (s : Store) : Except (String × Store) Store :=
  let s1 := create_fcrm_custom_fields s
  let s2 := create_fcrm_property_setters s1
  let s3 := create_default_data s2
  match create_trackflow_settings o s3 with
  | Except.error e => Except.error e
  | Except.ok s4 =>
    let s5 := setup_permissions s4
    enable_tracking o s5

/-- The full provisioning run through the install entry points:
before_install then after_install. -/
def run_install (o : Oracle) (s : Store) : Except (String × Store) Store :=
  match before_install s with
  | Except.error e => Except.error e
  | Except.ok s1 => after_install o s1

/-- The first binding of the name after_migrate (lines 39 to 42 of the
source); it is shadowed by the later binding below, which is the one in
effect when the module is loaded. -/
def after_migrate_first_binding (s : Store) : Store := create_fcrm_custom_fields s

/-- The second, effective binding of after_migrate (lines 586 to 602):
schema bootstrap, custom fields, settings, default data, CRM workspace
integration. -/
def after_migrate (o : Oracle) (s : Store) : Except (String × Store) Store :=
  match ensure_internal_ip_range_doctype o s with
  | Except.error e => Except.error e
  | Except.ok (_, s1) =>
    let s2 := create_fcrm_custom_fields s1
    match create_trackflow_settings o s2 with
    | Except.error e => Except.error e
    | Except.ok s3 =>
      let s4 := create_default_data s3
      setup_crm_integration o s4

/-- Decidable form of the precondition of check_dependencies: the host app
crm is installed (case-insensitively) and the three FCRM DocTypes exist. -/
def depsOkB (s : Store) : Bool :=
  (s.installed_apps.map strLower).contains "crm" &&
    required_doctypes.all (fun dt => s.doctypes.contains dt)

/-- The all-calls-succeed oracle. -/
def benign : Oracle :=
  { reload_fails := false, doctype_insert_fails := false, settings_insert_fails := false,
    website_save_fails := false, workspace_save_fails := false }

/-- The all-calls-fail oracle. -/
def hostileOracle : Oracle :=
  { reload_fails := true, doctype_insert_fails := true, settings_insert_fails := true,
    website_save_fails := true, workspace_save_fails := true }

/-- A store with the host CRM app and its DocTypes present and no TrackFlow
record yet. -/
def baseStore : Store :=
  { installed_apps := ["frappe", "crm"],
    doctypes := ["CRM Lead", "CRM Deal", "CRM Organization"],
    roles := [], custom_fields := [], property_setters := [], doc_perms := [],
    settings := none, head_html := some "", workspace_crm := some [],
    submittable := [], error_log := [] }

/-! ### Generic lemmas about the create-if-absent loop -/

theorem hasKey_append {β κ : Type} [DecidableEq κ] (kr : β → κ) (k : κ) (rs ts : List β) :
    hasKey kr k (rs ++ ts) = (hasKey kr k rs || hasKey kr k ts) := by
  simp [hasKey, List.any_append]

theorem ensureAll_nil {α β κ : Type} [DecidableEq κ] (keyOf : α → κ) (mk : α → β)
    (keyRec : β → κ) (recs : List β) :
    ensureAll keyOf mk keyRec [] recs = recs := rfl

theorem ensureAll_cons {α β κ : Type} [DecidableEq κ] (keyOf : α → κ) (mk : α → β)
    (keyRec : β → κ) (a : α) (items : List α) (recs : List β) :
    ensureAll keyOf mk keyRec (a :: items) recs =
      ensureAll keyOf mk keyRec items
        (if hasKey keyRec (keyOf a) recs then recs else recs ++ [mk a]) := rfl

/-- The loop only appends records: the result is the input followed by new
records, each built from some item whose key was absent from the input. -/
theorem ensureAll_shape {α β κ : Type} [DecidableEq κ] (keyOf : α → κ) (mk : α → β)
    (keyRec : β → κ) :
    ∀ (items : List α) (recs : List β), ∃ added,
      ensureAll keyOf mk keyRec items recs = recs ++ added ∧
      ∀ b ∈ added, ∃ a ∈ items, b = mk a ∧ hasKey keyRec (keyOf a) recs = false := by
  intro items
  induction items with
  | nil => intro recs; exact ⟨[], by simp [ensureAll_nil], by simp⟩
  | cons a items ih =>
    intro recs
    rw [ensureAll_cons]
    by_cases h : hasKey keyRec (keyOf a) recs = true
    · rw [if_pos h]
      obtain ⟨added, he, hp⟩ := ih recs
      refine ⟨added, he, ?_⟩
      intro b hb
      obtain ⟨a', ha', hb', hk⟩ := hp b hb
      exact ⟨a', List.mem_cons_of_mem _ ha', hb', hk⟩
    · have h' : hasKey keyRec (keyOf a) recs = false := by
        cases hv : hasKey keyRec (keyOf a) recs
        · rfl
        · exact absurd hv h
      rw [if_neg (by simp [h'])]
      obtain ⟨added, he, hp⟩ := ih (recs ++ [mk a])
      refine ⟨mk a :: added, ?_, ?_⟩
      · rw [he, List.append_assoc, List.singleton_append]
      · intro b hb
        rcases List.mem_cons.mp hb with hb | hb
        · exact ⟨a, List.mem_cons_self a items, hb, h'⟩
        · obtain ⟨a', ha', hb', hk⟩ := hp b hb
          have hk' : hasKey keyRec (keyOf a') recs = false := by
            have := hasKey_append keyRec (keyOf a') recs [mk a]
            rw [hk] at this
            exact (Bool.or_eq_false_iff.mp this.symm).1
          exact ⟨a', List.mem_cons_of_mem _ ha', hb', hk'⟩

/-- After the loop, a key is present iff it was present before or belongs to
one of the items. -/
theorem ensureAll_hasKey {α β κ : Type} [DecidableEq κ] (keyOf : α → κ) (mk : α → β)
    (keyRec : β → κ) (hinj : ∀ a, keyRec (mk a) = keyOf a) :
    ∀ (items : List α) (recs : List β) (k : κ),
      hasKey keyRec k (ensureAll keyOf mk keyRec items recs) =
        (hasKey keyRec k recs || items.any (fun a => decide (keyOf a = k))) := by
  intro items
  induction items with
  | nil => intro recs k; simp [ensureAll_nil]
  | cons a items ih =>
    intro recs k
    rw [ensureAll_cons, List.any_cons]
    by_cases h : hasKey keyRec (keyOf a) recs = true
    · rw [if_pos h, ih]
      by_cases hk : keyOf a = k
      · subst hk; simp [h]
      · simp [hk]
    · have h' : hasKey keyRec (keyOf a) recs = false := by
        cases hv : hasKey keyRec (keyOf a) recs
        · rfl
        · exact absurd hv h
      rw [if_neg (by simp [h']), ih, hasKey_append]
      have hone : hasKey keyRec k [mk a] = decide (keyOf a = k) := by
        simp [hasKey, hinj]
      rw [hone, Bool.or_assoc]

/-- When every item's key is already present, the loop is a no-op. -/
theorem ensureAll_noop {α β κ : Type} [DecidableEq κ] (keyOf : α → κ) (mk : α → β)
    (keyRec : β → κ) :
    ∀ (items : List α) (recs : List β),
      (∀ a ∈ items, hasKey keyRec (keyOf a) recs = true) →
      ensureAll keyOf mk keyRec items recs = recs := by
  intro items
  induction items with
  | nil => intro recs _; rfl
  | cons a items ih =>
    intro recs hall
    rw [ensureAll_cons, if_pos (hall a (List.mem_cons_self a items))]
    exact ih recs (fun a' ha' => hall a' (List.mem_cons_of_mem _ ha'))

/-- Every item's key is present after the loop. -/
theorem ensureAll_complete {α β κ : Type} [DecidableEq κ] (keyOf : α → κ) (mk : α → β)
    (keyRec : β → κ) (hinj : ∀ a, keyRec (mk a) = keyOf a)
    (items : List α) (recs : List β) :
    ∀ a ∈ items, hasKey keyRec (keyOf a) (ensureAll keyOf mk keyRec items recs) = true := by
  intro a ha
  rw [ensureAll_hasKey keyOf mk keyRec hinj]
  have : items.any (fun a' => decide (keyOf a' = keyOf a)) = true :=
    List.any_eq_true.mpr ⟨a, ha, by simp⟩
  simp [this]

/-- Running the loop a second time changes nothing. -/
theorem ensureAll_idem {α β κ : Type} [DecidableEq κ] (keyOf : α → κ) (mk : α → β)
    (keyRec : β → κ) (hinj : ∀ a, keyRec (mk a) = keyOf a)
    (items : List α) (recs : List β) :
    ensureAll keyOf mk keyRec items (ensureAll keyOf mk keyRec items recs) =
      ensureAll keyOf mk keyRec items recs :=
  ensureAll_noop keyOf mk keyRec items _
    (ensureAll_complete keyOf mk keyRec hinj items recs)

/-! ### Lemmas about substring search and occurrence counting -/

theorem countOccs_eq_zero_of_lt (pat : List Char) :
    ∀ s : List Char, s.length < pat.length → countOccs pat s = 0 := by
  intro s
  induction s with
  | nil => intro _; rfl
  | cons c rest ih =>
    intro hl
    have hnp : pat.isPrefixOf (c :: rest) = false := by
      cases hv : pat.isPrefixOf (c :: rest)
      · rfl
      · have := (List.isPrefixOf_iff_prefix.mp hv).length_le
        omega
    have : rest.length < pat.length := by
      simp only [List.length_cons] at hl; omega
    simp [countOccs, hnp, ih this]

theorem countOccs_self (pat : List Char) (hne : pat ≠ []) : countOccs pat pat = 1 := by
  match pat, hne with
  | c :: r, _ =>
    have hp : (c :: r).isPrefixOf (c :: r) = true :=
      List.isPrefixOf_iff_prefix.mpr (List.prefix_refl _)
    have hz : countOccs (c :: r) r = 0 :=
      countOccs_eq_zero_of_lt _ r (by simp)
    simp [countOccs, hp, hz]

theorem resumeFree_suffix (full : List Char) :
    ∀ s : List Char, resumeFree full s = true →
      ∀ r : List Char, ('\n' :: r) <:+ s → r.isPrefixOf full = false := by
  intro s
  induction s with
  | nil =>
    intro _ r hsuf
    have := hsuf.length_le
    simp at this
  | cons c rest ih =>
    intro hrf r hsuf
    simp only [resumeFree] at hrf
    rw [Bool.and_eq_true] at hrf
    rcases List.suffix_cons_iff.mp hsuf with heq | hsuf'
    · injection heq with hc hr
      subst hc; subst hr
      have h1 := hrf.1
      simp at h1
      exact h1
    · exact ih hrf.2 r hsuf'

theorem not_isPrefixOf_append (pat g : List Char) (hne : pat ≠ [])
    (hrf : resumeFree pat pat = true) (hg : pat.isPrefixOf g = false) :
    pat.isPrefixOf (g ++ '\n' :: pat) = false := by
  cases hv : pat.isPrefixOf (g ++ '\n' :: pat)
  · rfl
  · exfalso
    have hpre : pat <+: g ++ '\n' :: pat := List.isPrefixOf_iff_prefix.mp hv
    by_cases hle : pat.length ≤ g.length
    · have h1 : pat = List.take pat.length (g ++ '\n' :: pat) :=
        List.prefix_iff_eq_take.mp hpre
      rw [List.take_append_of_le_length hle] at h1
      have h2 : pat <+: g := h1 ▸ List.take_prefix pat.length g
      rw [List.isPrefixOf_iff_prefix.mpr h2] at hg
      exact Bool.true_eq_false.mp hg
    · have hgp : g <+: pat :=
        List.prefix_of_prefix_length_le (List.prefix_append g ('\n' :: pat)) hpre
          (by omega)
      obtain ⟨t, ht⟩ := hgp
      have hpre' : g ++ t <+: g ++ '\n' :: pat := by rw [ht]; exact hpre
      have htpre : t <+: '\n' :: pat := (List.prefix_append_right_inj g).mp hpre'
      have htne : t ≠ [] := by
        intro h0
        rw [h0, List.append_nil] at ht
        subst ht
        omega
      match t, htne, htpre, ht with
      | t0 :: t', _, htpre, ht =>
        have hcp := List.cons_prefix_cons.mp htpre
        have ht0 : t0 = '\n' := hcp.1
        have ht'pre : t' <+: pat := hcp.2
        have hsuf0 : (t0 :: t') <:+ pat := by
          rw [← ht]
          exact List.suffix_append g (t0 :: t')
        have hsuf : ('\n' :: t') <:+ pat := ht0 ▸ hsuf0
        have := resumeFree_suffix pat pat hrf t' hsuf
        rw [List.isPrefixOf_iff_prefix.mpr ht'pre] at this
        exact Bool.true_eq_false.mp this

/-- Appending the pattern after a newline to a text that does not contain it
yields exactly one occurrence, provided no suffix of the pattern that starts
right after a newline is also a prefix of the pattern. -/
theorem countOccs_append_pat (pat : List Char) (hne : pat ≠ [])
    (hrf : resumeFree pat pat = true) :
    ∀ h : List Char, strContains pat h = false →
      countOccs pat (h ++ '\n' :: pat) = 1 := by
  intro h
  induction h with
  | nil =>
    intro _
    have hg : pat.isPrefixOf ([] : List Char) = false := by
      match pat, hne with
      | c :: r, _ => rfl
    have hnp := not_isPrefixOf_append pat [] hne hrf hg
    simp only [List.nil_append] at hnp ⊢
    simp [countOccs, hnp, countOccs_self pat hne]
  | cons c h' ih =>
    intro hcon
    have hor := Bool.or_eq_false_iff.mp hcon
    have hnp := not_isPrefixOf_append pat (c :: h') hne hrf hor.1
    have : (c :: h') ++ '\n' :: pat = c :: (h' ++ '\n' :: pat) := rfl
    rw [this] at hnp ⊢
    simp [countOccs, hnp, ih hor.2]

theorem strContains_cons_of (pat : List Char) (c : Char) (rest : List Char)
    (h : strContains pat rest = true) : strContains pat (c :: rest) = true := by
  simp [strContains, h]

theorem strContains_self (pat : List Char) (hne : pat ≠ []) :
    strContains pat pat = true := by
  match pat, hne with
  | c :: r, _ =>
    have hp : (c :: r).isPrefixOf (c :: r) = true :=
      List.isPrefixOf_iff_prefix.mpr (List.prefix_refl _)
    simp [strContains, hp]

theorem strContains_append_right (pat t : List Char) (ht : strContains pat t = true) :
    ∀ h : List Char, strContains pat (h ++ t) = true := by
  intro h
  induction h with
  | nil => simpa using ht
  | cons c h' ih => exact strContains_cons_of pat c _ ih

/-- The marker pattern of enable_tracking is nonempty. -/
theorem tracking_script_ne_nil : tracking_script.data ≠ [] := by decide

/-- No suffix of the marker pattern that starts right after a newline is a
prefix of the marker pattern. -/
theorem tracking_script_resumeFree :
    resumeFree tracking_script.data tracking_script.data = true := by decide

/-- The character data of the appended head_html value. -/
theorem data_append_marker (h : String) :
    (h ++ "\n" ++ tracking_script).data = h.data ++ '\n' :: tracking_script.data := by
  have h1 : (h ++ "\n" ++ tracking_script).data =
      (h.data ++ ['\n']) ++ tracking_script.data := rfl
  rw [h1, List.append_assoc]
  rfl

/-- After the append performed by enable_tracking, the marker is a substring. -/
theorem pyContains_append_marker (h : String) :
    pyContains tracking_script (h ++ "\n" ++ tracking_script) = true := by
  show strContains tracking_script.data (h ++ "\n" ++ tracking_script).data = true
  rw [data_append_marker]
  exact strContains_append_right _ _
    (strContains_cons_of _ _ _ (strContains_self _ tracking_script_ne_nil)) h.data

/-- After the append performed by enable_tracking on a text that did not
contain the marker, the marker occurs exactly once. -/
theorem countOccsS_append_marker (h : String)
    (hcon : pyContains tracking_script h = false) :
    countOccsS tracking_script (h ++ "\n" ++ tracking_script) = 1 := by
  show countOccs tracking_script.data (h ++ "\n" ++ tracking_script).data = 1
  rw [data_append_marker]
  exact countOccs_append_pat tracking_script.data tracking_script_ne_nil
    tracking_script_resumeFree h.data hcon

/-! ### Total normal forms of the best-effort stages

Each best-effort stage catches its own exceptions, so its result is always
Except.ok of a total function of the oracle and the store.  The following
functions compute that result and the theorems prove the stages equal to
them; all further reasoning is over these total forms. -/

/-- The store with its error log cleared: two stores that agree after scrub
hold exactly the same records (apps, DocTypes, roles, custom fields,
property setters, permission rules, settings singleton, head_html text and
workspace links), differing at most in logged diagnostics. -/
def scrub (s : Store) : Store := { s with error_log := [] }

/-- Total result of ensure_internal_ip_range_doctype. -/
def ensure_spec (o : Oracle) (s : Store) : Bool × Store :=
  if s.doctypes.contains "Internal IP Range" then (true, s)
  else if o.reload_fails = false then
    (true, { s with doctypes := s.doctypes ++ ["Internal IP Range"] })
  else if o.doctype_insert_fails = false then
    (true, { s with doctypes := s.doctypes ++ ["Internal IP Range"] })
  else (false, logError ("Error creating Internal IP Range DocType: " ++ "insert error") s)

theorem ensure_eq_spec (o : Oracle) (s : Store) :
    ensure_internal_ip_range_doctype o s = Except.ok (ensure_spec o s) := by
  unfold ensure_internal_ip_range_doctype ensure_spec reload_internal_ip_range
    insert_internal_ip_range_doc
  by_cases h1 : s.doctypes.contains "Internal IP Range" <;>
    by_cases h2 : o.reload_fails <;>
    by_cases h3 : o.doctype_insert_fails <;>
    simp [h1, h2, h3] <;>
    split <;> rfl

/-- Total result of create_trackflow_settings. -/
def settings_spec (o : Oracle) (s : Store) : Store :=
  if s.settings.isSome then s
  else if (ensure_spec o s).1 then
    (if o.settings_insert_fails = false then
      { (ensure_spec o s).2 with settings := some default_trackflow_settings }
     else logError ("Error creating TrackFlow Settings: " ++ "settings insert error")
       (ensure_spec o s).2)
  else (ensure_spec o s).2

theorem create_trackflow_settings_eq_spec (o : Oracle) (s : Store) :
    create_trackflow_settings o s = Except.ok (settings_spec o s) := by
  unfold create_trackflow_settings settings_spec insert_trackflow_settings
  rw [ensure_eq_spec]
  by_cases h1 : s.settings.isSome <;>
    cases hes : ensure_spec o s with
    | mk b t =>
      cases b <;> by_cases h3 : o.settings_insert_fails <;> simp [h1, h3, hes]

/-- Total result of enable_tracking. -/
def tracking_spec (o : Oracle) (s : Store) : Store :=
  if pyContains tracking_script (headOr s) then s
  else if o.website_save_fails then s
  else { s with head_html := some (headOr s ++ "\n" ++ tracking_script) }

theorem enable_tracking_eq_spec (o : Oracle) (s : Store) :
    enable_tracking o s = Except.ok (tracking_spec o s) := by
  unfold enable_tracking enable_tracking_body tracking_spec
  by_cases h1 : pyContains tracking_script (headOr s) <;>
    by_cases h2 : o.website_save_fails <;>
    simp [h1, h2]

/-- Total result of setup_crm_integration. -/
def crm_spec (o : Oracle) (s : Store) : Store :=
  match s.workspace_crm with
  | none => s
  | some links =>
    if links.any (fun l => decide (l.label = "TrackFlow Analytics")) then s
    else if o.workspace_save_fails then
      logError ("Error setting up CRM integration: " ++ "workspace save error") s
    else { s with workspace_crm := some (links ++ trackflow_links) }

theorem setup_crm_integration_eq_spec (o : Oracle) (s : Store) :
    setup_crm_integration o s = Except.ok (crm_spec o s) := by
  unfold setup_crm_integration setup_crm_integration_body crm_spec
  cases hw : s.workspace_crm with
  | none => simp
  | some links =>
    by_cases h1 : links.any (fun l => decide (l.label = "TrackFlow Analytics")) <;>
      by_cases h2 : o.workspace_save_fails <;>
      simp [h1, h2]

/-- after_install as a chain of the total stage forms. -/
theorem after_install_eq (o : Oracle) (s : Store) :
    after_install o s = Except.ok (tracking_spec o (setup_permissions (settings_spec o
      (create_default_data (create_fcrm_property_setters (create_fcrm_custom_fields s)))))) := by
  unfold after_install
  simp only [create_trackflow_settings_eq_spec, enable_tracking_eq_spec]

/-- after_migrate as a chain of the total stage forms. -/
theorem after_migrate_eq (o : Oracle) (s : Store) :
    after_migrate o s = Except.ok (crm_spec o (create_default_data (settings_spec o
      (create_fcrm_custom_fields (ensure_spec o s).2)))) := by
  unfold after_migrate
  rw [ensure_eq_spec]
  simp only [create_trackflow_settings_eq_spec, setup_crm_integration_eq_spec]

/-! ### Frame, completeness and second-run lemmas for the pipeline stages -/

theorem contains_iff_mem {α : Type} [BEq α] [LawfulBEq α] {l : List α} {a : α} :
    l.contains a = true ↔ a ∈ l := List.elem_iff

/-- Keys present before the loop stay present. -/
theorem ensureAll_mono {α β κ : Type} [DecidableEq κ] (keyOf : α → κ) (mk : α → β)
    (keyRec : β → κ) (items : List α) (recs : List β) (k : κ)
    (h : hasKey keyRec k recs = true) :
    hasKey keyRec k (ensureAll keyOf mk keyRec items recs) = true := by
  obtain ⟨added, he, -⟩ := ensureAll_shape keyOf mk keyRec items recs
  rw [he, hasKey_append, h, Bool.true_or]

/-- processTable only rewrites the custom_fields list. -/
theorem processTable_shape :
    ∀ (tbl : List (String × List FieldDef)) (s : Store), ∃ cfs,
      processTable tbl s = { s with custom_fields := cfs } := by
  intro tbl
  induction tbl with
  | nil => intro s; exact ⟨s.custom_fields, rfl⟩
  | cons p rest ih =>
    intro s
    show ∃ cfs, processTable rest (apply_custom_fields p.1 p.2 s) = _
    unfold apply_custom_fields
    by_cases h : s.doctypes.contains p.1
    · rw [if_pos h]
      obtain ⟨cfs, hc⟩ := ih _
      exact ⟨cfs, hc⟩
    · rw [if_neg h]
      exact ih s

/-- create_roles leaves a store unchanged when both role names exist. -/
theorem create_roles_noop (t : Store)
    (h : ∀ a ∈ trackflow_roles, hasKey Role.role_name a.role_name t.roles = true) :
    create_roles t = t := by
  unfold create_roles
  rw [ensureAll_noop _ _ _ _ _ h]

/-- create_fcrm_property_setters leaves a store unchanged when every name
key exists. -/
theorem create_fcrm_property_setters_noop (t : Store)
    (h : ∀ a ∈ property_setters_table,
      hasKey PropertySetter.ps_name a.ps_name t.property_setters = true) :
    create_fcrm_property_setters t = t := by
  unfold create_fcrm_property_setters
  rw [ensureAll_noop _ _ _ _ _ h]

/-- setup_permissions leaves a store unchanged when every present candidate
DocType already has a TrackFlow Manager rule. -/
theorem setup_permissions_noop (t : Store)
    (h : ∀ dt ∈ possible_doctypes, t.doctypes.contains dt = true →
      hasKey permKey (dt, "TrackFlow Manager") t.doc_perms = true) :
    setup_permissions t = t := by
  have hall : ∀ dt ∈ possible_doctypes.filter (fun dt => t.doctypes.contains dt),
      hasKey permKey (dt, "TrackFlow Manager") t.doc_perms = true := by
    intro dt hdt
    have hm := List.mem_filter.mp hdt
    exact h dt hm.1 hm.2
  show { t with doc_perms := ensureAll (fun dt => (dt, "TrackFlow Manager")) (mkDocPerm t) permKey (possible_doctypes.filter (fun dt => t.doctypes.contains dt)) t.doc_perms } = t
  rw [ensureAll_noop _ _ _ _ _ hall]

/-- processTable leaves a store unchanged when, for every table entry whose
owning DocType is present, every field key exists. -/
theorem processTable_noop :
    ∀ (tbl : List (String × List FieldDef)) (t : Store),
      (∀ p ∈ tbl, t.doctypes.contains p.1 = true →
        ∀ f ∈ p.2, hasKey CustomField.name (cfKey p.1 f) t.custom_fields = true) →
      processTable tbl t = t := by
  intro tbl
  induction tbl with
  | nil => intro t _; rfl
  | cons p rest ih =>
    intro t h
    show processTable rest (apply_custom_fields p.1 p.2 t) = t
    unfold apply_custom_fields
    by_cases hp : t.doctypes.contains p.1
    · rw [if_pos hp]
      rw [ensureAll_noop _ _ _ _ _ (h p (List.mem_cons_self p rest) hp)]
      exact ih t (fun q hq => h q (List.mem_cons_of_mem _ hq))
    · rw [if_neg hp]
      exact ih t (fun q hq => h q (List.mem_cons_of_mem _ hq))

/-- Custom-field keys are stable under the rest of the table walk. -/
theorem processTable_hasKey_mono :
    ∀ (tbl : List (String × List FieldDef)) (t : Store) (k : String),
      hasKey CustomField.name k t.custom_fields = true →
      hasKey CustomField.name k (processTable tbl t).custom_fields = true := by
  intro tbl
  induction tbl with
  | nil => intro t k h; exact h
  | cons p rest ih =>
    intro t k h
    show hasKey _ k (processTable rest (apply_custom_fields p.1 p.2 t)).custom_fields = true
    apply ih
    unfold apply_custom_fields
    by_cases hp : t.doctypes.contains p.1
    · rw [if_pos hp]
      exact ensureAll_mono _ _ _ _ _ _ h
    · rw [if_neg hp]
      exact h

/-- After the table walk, every field key of a present owning DocType exists. -/
theorem processTable_complete :
    ∀ (tbl : List (String × List FieldDef)) (s : Store),
      ∀ p ∈ tbl, s.doctypes.contains p.1 = true →
        ∀ f ∈ p.2, hasKey CustomField.name (cfKey p.1 f)
          (processTable tbl s).custom_fields = true := by
  intro tbl
  induction tbl with
  | nil => intro s p hp; exact absurd hp (List.not_mem_nil p)
  | cons q rest ih =>
    intro s p hp hdt f hf
    rcases List.mem_cons.mp hp with hq | hp'
    · subst hq
      show hasKey _ _ (processTable rest (apply_custom_fields p.1 p.2 s)).custom_fields = true
      apply processTable_hasKey_mono
      unfold apply_custom_fields
      rw [if_pos hdt]
      exact ensureAll_complete (cfKey p.1) (fun f => CustomField.mk p.1 f)
        CustomField.name (fun a => rfl) p.2 s.custom_fields f hf
    · show hasKey _ _ (processTable rest (apply_custom_fields q.1 q.2 s)).custom_fields = true
      have hdt' : (apply_custom_fields q.1 q.2 s).doctypes.contains p.1 = true := by
        unfold apply_custom_fields
        by_cases hq : s.doctypes.contains q.1
        · rw [if_pos hq]; exact hdt
        · rw [if_neg hq]; exact hdt
      have := ih (apply_custom_fields q.1 q.2 s) p hp' hdt' f hf
      exact this

/-! ### Update shapes and projections of the stages -/

theorem ensure_spec_eq_update (o : Oracle) (s : Store) :
    ∃ dts lg, (ensure_spec o s).2 = { s with doctypes := dts, error_log := lg } := by
  refine ⟨(ensure_spec o s).2.doctypes, (ensure_spec o s).2.error_log, ?_⟩
  unfold ensure_spec logError
  split_ifs <;> rfl

theorem settings_spec_eq_update (o : Oracle) (u : Store) :
    ∃ dts st lg, settings_spec o u =
      { u with doctypes := dts, settings := st, error_log := lg } := by
  refine ⟨(settings_spec o u).doctypes, (settings_spec o u).settings,
    (settings_spec o u).error_log, ?_⟩
  unfold settings_spec ensure_spec logError
  split_ifs <;> rfl

theorem tracking_spec_eq_update (o : Oracle) (u : Store) :
    ∃ hh, tracking_spec o u = { u with head_html := hh } := by
  refine ⟨(tracking_spec o u).head_html, ?_⟩
  unfold tracking_spec
  split_ifs <;> rfl

theorem crm_spec_eq_update (o : Oracle) (u : Store) :
    ∃ w lg, crm_spec o u = { u with workspace_crm := w, error_log := lg } := by
  refine ⟨(crm_spec o u).workspace_crm, (crm_spec o u).error_log, ?_⟩
  unfold crm_spec logError
  split
  · rfl
  · split_ifs <;> rfl

theorem create_fcrm_custom_fields_eq_update (s : Store) :
    ∃ cfs, create_fcrm_custom_fields s = { s with custom_fields := cfs } :=
  processTable_shape custom_fields_table s

@[simp] theorem create_default_data_eq (s : Store) : create_default_data s = s := rfl

@[simp] theorem create_roles_apps (s : Store) : (create_roles s).installed_apps = s.installed_apps := rfl
@[simp] theorem create_roles_doctypes (s : Store) : (create_roles s).doctypes = s.doctypes := rfl
@[simp] theorem create_roles_custom_fields (s : Store) : (create_roles s).custom_fields = s.custom_fields := rfl
@[simp] theorem create_roles_property_setters (s : Store) : (create_roles s).property_setters = s.property_setters := rfl
@[simp] theorem create_roles_doc_perms (s : Store) : (create_roles s).doc_perms = s.doc_perms := rfl
@[simp] theorem create_roles_settings (s : Store) : (create_roles s).settings = s.settings := rfl
@[simp] theorem create_roles_head_html (s : Store) : (create_roles s).head_html = s.head_html := rfl
@[simp] theorem create_roles_workspace (s : Store) : (create_roles s).workspace_crm = s.workspace_crm := rfl
@[simp] theorem create_roles_submittable (s : Store) : (create_roles s).submittable = s.submittable := rfl
@[simp] theorem create_roles_error_log (s : Store) : (create_roles s).error_log = s.error_log := rfl
theorem create_roles_roles (s : Store) : (create_roles s).roles = ensureAll Role.role_name id Role.role_name trackflow_roles s.roles := rfl

@[simp] theorem ps_stage_apps (s : Store) : (create_fcrm_property_setters s).installed_apps = s.installed_apps := rfl
@[simp] theorem ps_stage_doctypes (s : Store) : (create_fcrm_property_setters s).doctypes = s.doctypes := rfl
@[simp] theorem ps_stage_roles (s : Store) : (create_fcrm_property_setters s).roles = s.roles := rfl
@[simp] theorem ps_stage_custom_fields (s : Store) : (create_fcrm_property_setters s).custom_fields = s.custom_fields := rfl
@[simp] theorem ps_stage_doc_perms (s : Store) : (create_fcrm_property_setters s).doc_perms = s.doc_perms := rfl
@[simp] theorem ps_stage_settings (s : Store) : (create_fcrm_property_setters s).settings = s.settings := rfl
@[simp] theorem ps_stage_head_html (s : Store) : (create_fcrm_property_setters s).head_html = s.head_html := rfl
@[simp] theorem ps_stage_workspace (s : Store) : (create_fcrm_property_setters s).workspace_crm = s.workspace_crm := rfl
@[simp] theorem ps_stage_submittable (s : Store) : (create_fcrm_property_setters s).submittable = s.submittable := rfl
@[simp] theorem ps_stage_error_log (s : Store) : (create_fcrm_property_setters s).error_log = s.error_log := rfl
theorem ps_stage_property_setters (s : Store) : (create_fcrm_property_setters s).property_setters = ensureAll PropertySetter.ps_name id PropertySetter.ps_name property_setters_table s.property_setters := rfl

@[simp] theorem perms_stage_apps (s : Store) : (setup_permissions s).installed_apps = s.installed_apps := rfl
@[simp] theorem perms_stage_doctypes (s : Store) : (setup_permissions s).doctypes = s.doctypes := rfl
@[simp] theorem perms_stage_roles (s : Store) : (setup_permissions s).roles = s.roles := rfl
@[simp] theorem perms_stage_custom_fields (s : Store) : (setup_permissions s).custom_fields = s.custom_fields := rfl
@[simp] theorem perms_stage_property_setters (s : Store) : (setup_permissions s).property_setters = s.property_setters := rfl
@[simp] theorem perms_stage_settings (s : Store) : (setup_permissions s).settings = s.settings := rfl
@[simp] theorem perms_stage_head_html (s : Store) : (setup_permissions s).head_html = s.head_html := rfl
@[simp] theorem perms_stage_workspace (s : Store) : (setup_permissions s).workspace_crm = s.workspace_crm := rfl
@[simp] theorem perms_stage_submittable (s : Store) : (setup_permissions s).submittable = s.submittable := rfl
@[simp] theorem perms_stage_error_log (s : Store) : (setup_permissions s).error_log = s.error_log := rfl
theorem perms_stage_doc_perms (s : Store) : (setup_permissions s).doc_perms = ensureAll (fun dt => (dt, "TrackFlow Manager")) (mkDocPerm s) permKey (possible_doctypes.filter (fun dt => s.doctypes.contains dt)) s.doc_perms := rfl

@[simp] theorem cf_stage_apps (s : Store) : (create_fcrm_custom_fields s).installed_apps = s.installed_apps := by
  obtain ⟨cfs, h⟩ := create_fcrm_custom_fields_eq_update s; rw [h]
@[simp] theorem cf_stage_doctypes (s : Store) : (create_fcrm_custom_fields s).doctypes = s.doctypes := by
  obtain ⟨cfs, h⟩ := create_fcrm_custom_fields_eq_update s; rw [h]
@[simp] theorem cf_stage_roles (s : Store) : (create_fcrm_custom_fields s).roles = s.roles := by
  obtain ⟨cfs, h⟩ := create_fcrm_custom_fields_eq_update s; rw [h]
@[simp] theorem cf_stage_property_setters (s : Store) : (create_fcrm_custom_fields s).property_setters = s.property_setters := by
  obtain ⟨cfs, h⟩ := create_fcrm_custom_fields_eq_update s; rw [h]
@[simp] theorem cf_stage_doc_perms (s : Store) : (create_fcrm_custom_fields s).doc_perms = s.doc_perms := by
  obtain ⟨cfs, h⟩ := create_fcrm_custom_fields_eq_update s; rw [h]
@[simp] theorem cf_stage_settings (s : Store) : (create_fcrm_custom_fields s).settings = s.settings := by
  obtain ⟨cfs, h⟩ := create_fcrm_custom_fields_eq_update s; rw [h]
@[simp] theorem cf_stage_head_html (s : Store) : (create_fcrm_custom_fields s).head_html = s.head_html := by
  obtain ⟨cfs, h⟩ := create_fcrm_custom_fields_eq_update s; rw [h]
@[simp] theorem cf_stage_workspace (s : Store) : (create_fcrm_custom_fields s).workspace_crm = s.workspace_crm := by
  obtain ⟨cfs, h⟩ := create_fcrm_custom_fields_eq_update s; rw [h]
@[simp] theorem cf_stage_submittable (s : Store) : (create_fcrm_custom_fields s).submittable = s.submittable := by
  obtain ⟨cfs, h⟩ := create_fcrm_custom_fields_eq_update s; rw [h]
@[simp] theorem cf_stage_error_log (s : Store) : (create_fcrm_custom_fields s).error_log = s.error_log := by
  obtain ⟨cfs, h⟩ := create_fcrm_custom_fields_eq_update s; rw [h]

@[simp] theorem ensure2_apps (o : Oracle) (s : Store) : (ensure_spec o s).2.installed_apps = s.installed_apps := by
  obtain ⟨dts, lg, h⟩ := ensure_spec_eq_update o s; rw [h]
@[simp] theorem ensure2_roles (o : Oracle) (s : Store) : (ensure_spec o s).2.roles = s.roles := by
  obtain ⟨dts, lg, h⟩ := ensure_spec_eq_update o s; rw [h]
@[simp] theorem ensure2_custom_fields (o : Oracle) (s : Store) : (ensure_spec o s).2.custom_fields = s.custom_fields := by
  obtain ⟨dts, lg, h⟩ := ensure_spec_eq_update o s; rw [h]
@[simp] theorem ensure2_property_setters (o : Oracle) (s : Store) : (ensure_spec o s).2.property_setters = s.property_setters := by
  obtain ⟨dts, lg, h⟩ := ensure_spec_eq_update o s; rw [h]
@[simp] theorem ensure2_doc_perms (o : Oracle) (s : Store) : (ensure_spec o s).2.doc_perms = s.doc_perms := by
  obtain ⟨dts, lg, h⟩ := ensure_spec_eq_update o s; rw [h]
@[simp] theorem ensure2_settings (o : Oracle) (s : Store) : (ensure_spec o s).2.settings = s.settings := by
  obtain ⟨dts, lg, h⟩ := ensure_spec_eq_update o s; rw [h]
@[simp] theorem ensure2_head_html (o : Oracle) (s : Store) : (ensure_spec o s).2.head_html = s.head_html := by
  obtain ⟨dts, lg, h⟩ := ensure_spec_eq_update o s; rw [h]
@[simp] theorem ensure2_workspace (o : Oracle) (s : Store) : (ensure_spec o s).2.workspace_crm = s.workspace_crm := by
  obtain ⟨dts, lg, h⟩ := ensure_spec_eq_update o s; rw [h]
@[simp] theorem ensure2_submittable (o : Oracle) (s : Store) : (ensure_spec o s).2.submittable = s.submittable := by
  obtain ⟨dts, lg, h⟩ := ensure_spec_eq_update o s; rw [h]

@[simp] theorem settings_spec_apps (o : Oracle) (u : Store) : (settings_spec o u).installed_apps = u.installed_apps := by
  obtain ⟨dts, st, lg, h⟩ := settings_spec_eq_update o u; rw [h]
@[simp] theorem settings_spec_roles (o : Oracle) (u : Store) : (settings_spec o u).roles = u.roles := by
  obtain ⟨dts, st, lg, h⟩ := settings_spec_eq_update o u; rw [h]
@[simp] theorem settings_spec_custom_fields (o : Oracle) (u : Store) : (settings_spec o u).custom_fields = u.custom_fields := by
  obtain ⟨dts, st, lg, h⟩ := settings_spec_eq_update o u; rw [h]
@[simp] theorem settings_spec_property_setters (o : Oracle) (u : Store) : (settings_spec o u).property_setters = u.property_setters := by
  obtain ⟨dts, st, lg, h⟩ := settings_spec_eq_update o u; rw [h]
@[simp] theorem settings_spec_doc_perms (o : Oracle) (u : Store) : (settings_spec o u).doc_perms = u.doc_perms := by
  obtain ⟨dts, st, lg, h⟩ := settings_spec_eq_update o u; rw [h]
@[simp] theorem settings_spec_head_html (o : Oracle) (u : Store) : (settings_spec o u).head_html = u.head_html := by
  obtain ⟨dts, st, lg, h⟩ := settings_spec_eq_update o u; rw [h]
@[simp] theorem settings_spec_workspace (o : Oracle) (u : Store) : (settings_spec o u).workspace_crm = u.workspace_crm := by
  obtain ⟨dts, st, lg, h⟩ := settings_spec_eq_update o u; rw [h]
@[simp] theorem settings_spec_submittable (o : Oracle) (u : Store) : (settings_spec o u).submittable = u.submittable := by
  obtain ⟨dts, st, lg, h⟩ := settings_spec_eq_update o u; rw [h]

@[simp] theorem tracking_spec_apps (o : Oracle) (u : Store) : (tracking_spec o u).installed_apps = u.installed_apps := by
  obtain ⟨hh, h⟩ := tracking_spec_eq_update o u; rw [h]
@[simp] theorem tracking_spec_doctypes (o : Oracle) (u : Store) : (tracking_spec o u).doctypes = u.doctypes := by
  obtain ⟨hh, h⟩ := tracking_spec_eq_update o u; rw [h]
@[simp] theorem tracking_spec_roles (o : Oracle) (u : Store) : (tracking_spec o u).roles = u.roles := by
  obtain ⟨hh, h⟩ := tracking_spec_eq_update o u; rw [h]
@[simp] theorem tracking_spec_custom_fields (o : Oracle) (u : Store) : (tracking_spec o u).custom_fields = u.custom_fields := by
  obtain ⟨hh, h⟩ := tracking_spec_eq_update o u; rw [h]
@[simp] theorem tracking_spec_property_setters (o : Oracle) (u : Store) : (tracking_spec o u).property_setters = u.property_setters := by
  obtain ⟨hh, h⟩ := tracking_spec_eq_update o u; rw [h]
@[simp] theorem tracking_spec_doc_perms (o : Oracle) (u : Store) : (tracking_spec o u).doc_perms = u.doc_perms := by
  obtain ⟨hh, h⟩ := tracking_spec_eq_update o u; rw [h]
@[simp] theorem tracking_spec_settings (o : Oracle) (u : Store) : (tracking_spec o u).settings = u.settings := by
  obtain ⟨hh, h⟩ := tracking_spec_eq_update o u; rw [h]
@[simp] theorem tracking_spec_workspace (o : Oracle) (u : Store) : (tracking_spec o u).workspace_crm = u.workspace_crm := by
  obtain ⟨hh, h⟩ := tracking_spec_eq_update o u; rw [h]
@[simp] theorem tracking_spec_submittable (o : Oracle) (u : Store) : (tracking_spec o u).submittable = u.submittable := by
  obtain ⟨hh, h⟩ := tracking_spec_eq_update o u; rw [h]
@[simp] theorem tracking_spec_error_log (o : Oracle) (u : Store) : (tracking_spec o u).error_log = u.error_log := by
  obtain ⟨hh, h⟩ := tracking_spec_eq_update o u; rw [h]

@[simp] theorem crm_spec_apps (o : Oracle) (u : Store) : (crm_spec o u).installed_apps = u.installed_apps := by
  obtain ⟨w, lg, h⟩ := crm_spec_eq_update o u; rw [h]
@[simp] theorem crm_spec_doctypes (o : Oracle) (u : Store) : (crm_spec o u).doctypes = u.doctypes := by
  obtain ⟨w, lg, h⟩ := crm_spec_eq_update o u; rw [h]
@[simp] theorem crm_spec_roles (o : Oracle) (u : Store) : (crm_spec o u).roles = u.roles := by
  obtain ⟨w, lg, h⟩ := crm_spec_eq_update o u; rw [h]
@[simp] theorem crm_spec_custom_fields (o : Oracle) (u : Store) : (crm_spec o u).custom_fields = u.custom_fields := by
  obtain ⟨w, lg, h⟩ := crm_spec_eq_update o u; rw [h]
@[simp] theorem crm_spec_property_setters (o : Oracle) (u : Store) : (crm_spec o u).property_setters = u.property_setters := by
  obtain ⟨w, lg, h⟩ := crm_spec_eq_update o u; rw [h]
@[simp] theorem crm_spec_doc_perms (o : Oracle) (u : Store) : (crm_spec o u).doc_perms = u.doc_perms := by
  obtain ⟨w, lg, h⟩ := crm_spec_eq_update o u; rw [h]
@[simp] theorem crm_spec_settings (o : Oracle) (u : Store) : (crm_spec o u).settings = u.settings := by
  obtain ⟨w, lg, h⟩ := crm_spec_eq_update o u; rw [h]
@[simp] theorem crm_spec_head_html (o : Oracle) (u : Store) : (crm_spec o u).head_html = u.head_html := by
  obtain ⟨w, lg, h⟩ := crm_spec_eq_update o u; rw [h]
@[simp] theorem crm_spec_submittable (o : Oracle) (u : Store) : (crm_spec o u).submittable = u.submittable := by
  obtain ⟨w, lg, h⟩ := crm_spec_eq_update o u; rw [h]

/-- The doctypes list after the settings stage: unchanged, or with the
Internal IP Range DocType appended. -/
theorem settings_spec_doctypes_or (o : Oracle) (u : Store) :
    (settings_spec o u).doctypes = u.doctypes ∨
      (settings_spec o u).doctypes = u.doctypes ++ ["Internal IP Range"] := by
  unfold settings_spec ensure_spec logError
  split_ifs <;> first | exact Or.inl rfl | exact Or.inr rfl

/-- The settings singleton after the settings stage: untouched, or created
with the full default payload. -/
theorem settings_spec_settings_or (o : Oracle) (u : Store) :
    (settings_spec o u).settings = u.settings ∨
      (settings_spec o u).settings = some default_trackflow_settings := by
  unfold settings_spec ensure_spec logError
  split_ifs <;> first | exact Or.inl rfl | exact Or.inr rfl

/-! ### Branch lemmas for the fallible stages -/

theorem contains_append_singleton {l : List String} {x a : String}
    (h : (l ++ [x]).contains a = true) : l.contains a = true ∨ a = x := by
  rw [contains_iff_mem] at h
  rcases List.mem_append.mp h with h | h
  · exact Or.inl (contains_iff_mem.mpr h)
  · exact Or.inr (List.mem_singleton.mp h)

theorem contains_append_self (l : List String) (a : String) :
    (l ++ [a]).contains a = true :=
  contains_iff_mem.mpr (List.mem_append_right _ (List.mem_singleton.mpr rfl))

theorem ne_true_of_eq_false {b : Bool} (h : b = false) : ¬(b = true) := by
  rw [h]
  exact Bool.false_ne_true

theorem ne_false_of_eq_true {b : Bool} (h : b = true) : ¬(b = false) := by
  rw [h]
  simp

theorem ensure_spec_contains (o : Oracle) (s : Store)
    (h : s.doctypes.contains "Internal IP Range" = true) :
    ensure_spec o s = (true, s) := by
  unfold ensure_spec
  rw [if_pos h]

theorem ensure_spec_reload_ok (o : Oracle) (s : Store)
    (h : s.doctypes.contains "Internal IP Range" = false)
    (h2 : o.reload_fails = false) :
    ensure_spec o s = (true, { s with doctypes := s.doctypes ++ ["Internal IP Range"] }) := by
  unfold ensure_spec
  rw [if_neg (ne_true_of_eq_false h), if_pos h2]

theorem ensure_spec_insert_ok (o : Oracle) (s : Store)
    (h : s.doctypes.contains "Internal IP Range" = false)
    (h2 : o.reload_fails = true) (h3 : o.doctype_insert_fails = false) :
    ensure_spec o s = (true, { s with doctypes := s.doctypes ++ ["Internal IP Range"] }) := by
  unfold ensure_spec
  rw [if_neg (ne_true_of_eq_false h), if_neg (ne_false_of_eq_true h2), if_pos h3]

theorem ensure_spec_fail (o : Oracle) (s : Store)
    (h : s.doctypes.contains "Internal IP Range" = false)
    (h2 : o.reload_fails = true) (h3 : o.doctype_insert_fails = true) :
    ensure_spec o s =
      (false, logError ("Error creating Internal IP Range DocType: " ++ "insert error") s) := by
  unfold ensure_spec
  rw [if_neg (ne_true_of_eq_false h), if_neg (ne_false_of_eq_true h2), if_neg (ne_false_of_eq_true h3)]

theorem settings_spec_isSome (o : Oracle) (t : Store) (h : t.settings.isSome = true) :
    settings_spec o t = t := by
  unfold settings_spec
  rw [if_pos h]

theorem settings_spec_none_ensure_true (o : Oracle) (u v : Store)
    (hnone : u.settings = none) (hens : ensure_spec o u = (true, v))
    (hins : o.settings_insert_fails = false) :
    settings_spec o u = { v with settings := some default_trackflow_settings } := by
  unfold settings_spec
  rw [hens, if_neg (by rw [hnone]; simp), if_pos rfl, if_pos hins]

theorem settings_spec_none_ensure_true_fail (o : Oracle) (u v : Store)
    (hnone : u.settings = none) (hens : ensure_spec o u = (true, v))
    (hins : o.settings_insert_fails = true) :
    settings_spec o u =
      logError ("Error creating TrackFlow Settings: " ++ "settings insert error") v := by
  unfold settings_spec
  rw [hens, if_neg (by rw [hnone]; simp), if_pos rfl, if_neg (by simp [hins])]

theorem settings_spec_none_ensure_false (o : Oracle) (u v : Store)
    (hnone : u.settings = none) (hens : ensure_spec o u = (false, v)) :
    settings_spec o u = v := by
  unfold settings_spec
  rw [hens, if_neg (by rw [hnone]; simp), if_neg (by simp)]

theorem tracking_spec_of_contains (o : Oracle) (t : Store)
    (h : pyContains tracking_script (headOr t) = true) : tracking_spec o t = t := by
  unfold tracking_spec
  rw [if_pos h]

theorem tracking_spec_save_fail (o : Oracle) (t : Store)
    (h : pyContains tracking_script (headOr t) = false)
    (h2 : o.website_save_fails = true) : tracking_spec o t = t := by
  unfold tracking_spec
  rw [if_neg (ne_true_of_eq_false h), if_pos h2]

theorem tracking_spec_append (o : Oracle) (t : Store)
    (h : pyContains tracking_script (headOr t) = false)
    (h2 : o.website_save_fails = false) :
    tracking_spec o t = { t with head_html := some (headOr t ++ "\n" ++ tracking_script) } := by
  unfold tracking_spec
  rw [if_neg (ne_true_of_eq_false h), if_neg (ne_true_of_eq_false h2)]

theorem headOr_congr (t u : Store) (h : t.head_html = u.head_html) : headOr t = headOr u := by
  unfold headOr
  rw [h]

theorem headOr_some (t : Store) (h : String) (hh : t.head_html = some h) : headOr t = h := by
  unfold headOr
  rw [hh]

theorem crm_spec_none (o : Oracle) (u : Store) (hw : u.workspace_crm = none) :
    crm_spec o u = u := by
  unfold crm_spec
  rw [hw]

theorem crm_spec_some_present (o : Oracle) (u : Store) (links : List LinkEntry)
    (hw : u.workspace_crm = some links)
    (h : links.any (fun l => decide (l.label = "TrackFlow Analytics")) = true) :
    crm_spec o u = u := by
  unfold crm_spec
  rw [hw]
  exact if_pos h

theorem crm_spec_some_save_fail (o : Oracle) (u : Store) (links : List LinkEntry)
    (hw : u.workspace_crm = some links)
    (h : links.any (fun l => decide (l.label = "TrackFlow Analytics")) = false)
    (h2 : o.workspace_save_fails = true) :
    crm_spec o u =
      logError ("Error setting up CRM integration: " ++ "workspace save error") u := by
  have hstep : crm_spec o u = (if links.any (fun l => decide (l.label = "TrackFlow Analytics")) then u else if o.workspace_save_fails then logError ("Error setting up CRM integration: " ++ "workspace save error") u else { u with workspace_crm := some (links ++ trackflow_links) }) := by
    unfold crm_spec
    rw [hw]
  rw [hstep, if_neg (ne_true_of_eq_false h), if_pos h2]

theorem crm_spec_some_append (o : Oracle) (u : Store) (links : List LinkEntry)
    (hw : u.workspace_crm = some links)
    (h : links.any (fun l => decide (l.label = "TrackFlow Analytics")) = false)
    (h2 : o.workspace_save_fails = false) :
    crm_spec o u = { u with workspace_crm := some (links ++ trackflow_links) } := by
  have hstep : crm_spec o u = (if links.any (fun l => decide (l.label = "TrackFlow Analytics")) then u else if o.workspace_save_fails then logError ("Error setting up CRM integration: " ++ "workspace save error") u else { u with workspace_crm := some (links ++ trackflow_links) }) := by
    unfold crm_spec
    rw [hw]
  rw [hstep, if_neg (ne_true_of_eq_false h), if_neg (ne_true_of_eq_false h2)]

/-! ### Second-run stability of the settings and tracking stages -/

/-- If the settings singleton is still absent after a run of the settings
stage, that run created nothing: the insert must fail whenever the child
DocType is available, and the whole bootstrap must fail whenever it is not. -/
theorem settings_none_inv (o : Oracle) (u : Store)
    (h : (settings_spec o u).settings = none) :
    u.settings = none ∧
    ((settings_spec o u).doctypes.contains "Internal IP Range" = true →
      o.settings_insert_fails = true) ∧
    ((settings_spec o u).doctypes.contains "Internal IP Range" = false →
      o.reload_fails = true ∧ o.doctype_insert_fails = true) := by
  cases hs : u.settings with
  | some v =>
    rw [settings_spec_isSome o u (by rw [hs]; rfl), hs] at h
    exact absurd h (by simp)
  | none =>
    cases hc : u.doctypes.contains "Internal IP Range" with
    | true =>
      cases hins : o.settings_insert_fails with
      | false =>
        rw [settings_spec_none_ensure_true o u u hs (ensure_spec_contains o u hc) hins] at h
        exact absurd h (by simp)
      | true =>
        rw [settings_spec_none_ensure_true_fail o u u hs (ensure_spec_contains o u hc) hins]
        refine ⟨rfl, fun _ => rfl, fun hcf => ?_⟩
        rw [show (logError ("Error creating TrackFlow Settings: " ++ "settings insert error") u).doctypes = u.doctypes from rfl] at hcf
        rw [hc] at hcf
        exact absurd hcf (by simp)
    | false =>
      cases hr : o.reload_fails with
      | false =>
        cases hins : o.settings_insert_fails with
        | false =>
          rw [settings_spec_none_ensure_true o u _ hs (ensure_spec_reload_ok o u hc hr) hins] at h
          exact absurd h (by simp)
        | true =>
          rw [settings_spec_none_ensure_true_fail o u _ hs (ensure_spec_reload_ok o u hc hr) hins]
          refine ⟨rfl, fun _ => rfl, fun hcf => ?_⟩
          have : (u.doctypes ++ ["Internal IP Range"]).contains "Internal IP Range" = true :=
            contains_append_self u.doctypes "Internal IP Range"
          rw [show (logError ("Error creating TrackFlow Settings: " ++ "settings insert error") { u with doctypes := u.doctypes ++ ["Internal IP Range"] }).doctypes = u.doctypes ++ ["Internal IP Range"] from rfl] at hcf
          rw [this] at hcf
          exact absurd hcf (by simp)
      | true =>
        cases hd : o.doctype_insert_fails with
        | false =>
          cases hins : o.settings_insert_fails with
          | false =>
            rw [settings_spec_none_ensure_true o u _ hs (ensure_spec_insert_ok o u hc hr hd) hins] at h
            exact absurd h (by simp)
          | true =>
            rw [settings_spec_none_ensure_true_fail o u _ hs (ensure_spec_insert_ok o u hc hr hd) hins]
            refine ⟨rfl, fun _ => rfl, fun hcf => ?_⟩
            have : (u.doctypes ++ ["Internal IP Range"]).contains "Internal IP Range" = true :=
              contains_append_self u.doctypes "Internal IP Range"
            rw [show (logError ("Error creating TrackFlow Settings: " ++ "settings insert error") { u with doctypes := u.doctypes ++ ["Internal IP Range"] }).doctypes = u.doctypes ++ ["Internal IP Range"] from rfl] at hcf
            rw [this] at hcf
            exact absurd hcf (by simp)
        | true =>
          rw [settings_spec_none_ensure_false o u _ hs (ensure_spec_fail o u hc hr hd)]
          refine ⟨rfl, fun hct => ?_, fun _ => ⟨rfl, rfl⟩⟩
          rw [show (logError ("Error creating Internal IP Range DocType: " ++ "insert error") u).doctypes = u.doctypes from rfl] at hct
          rw [hc] at hct
          exact absurd hct (by simp)

/-- A second run of the settings stage, against the store a first run
produced, changes no record (at most the error log grows). -/
theorem settings_spec_stable (o : Oracle) (u t : Store)
    (hset : t.settings = (settings_spec o u).settings)
    (hdt : t.doctypes = (settings_spec o u).doctypes) :
    scrub (settings_spec o t) = scrub t := by
  cases hts : t.settings with
  | some v =>
    rw [settings_spec_isSome o t (by rw [hts]; rfl)]
  | none =>
    have hn : (settings_spec o u).settings = none := by rw [← hset, hts]
    obtain ⟨hu, himp1, himp2⟩ := settings_none_inv o u hn
    cases hc : t.doctypes.contains "Internal IP Range" with
    | true =>
      have hf : o.settings_insert_fails = true := himp1 (by rw [← hdt]; exact hc)
      rw [settings_spec_none_ensure_true_fail o t t hts (ensure_spec_contains o t hc) hf]
      rfl
    | false =>
      obtain ⟨h3, h4⟩ := himp2 (by rw [← hdt]; exact hc)
      rw [settings_spec_none_ensure_false o t _ hts (ensure_spec_fail o t hc h3 h4)]
      rfl

/-- Under the benign oracle the settings stage always ends with the
singleton present. -/
theorem settings_spec_benign_isSome (u : Store) :
    (settings_spec benign u).settings.isSome = true := by
  cases hs : u.settings with
  | some v =>
    rw [settings_spec_isSome benign u (by rw [hs]; rfl), hs]
    rfl
  | none =>
    cases hc : u.doctypes.contains "Internal IP Range" with
    | true =>
      rw [settings_spec_none_ensure_true benign u u hs (ensure_spec_contains benign u hc) rfl]
      rfl
    | false =>
      rw [settings_spec_none_ensure_true benign u _ hs (ensure_spec_reload_ok benign u hc rfl) rfl]
      rfl

/-- A second run of the tracking stage, against the store a first run
produced, is an exact no-op. -/
theorem tracking_spec_stable (o : Oracle) (u t : Store)
    (hh : t.head_html = (tracking_spec o u).head_html) :
    tracking_spec o t = t := by
  cases hc : pyContains tracking_script (headOr u) with
  | true =>
    have he : (tracking_spec o u).head_html = u.head_html := by
      rw [tracking_spec_of_contains o u hc]
    have hto : headOr t = headOr u := headOr_congr t u (by rw [hh, he])
    exact tracking_spec_of_contains o t (by rw [hto]; exact hc)
  | false =>
    cases hs : o.website_save_fails with
    | true =>
      have he : (tracking_spec o u).head_html = u.head_html := by
        rw [tracking_spec_save_fail o u hc hs]
      have hto : headOr t = headOr u := headOr_congr t u (by rw [hh, he])
      exact tracking_spec_save_fail o t (by rw [hto]; exact hc) hs
    | false =>
      have he : (tracking_spec o u).head_html = some (headOr u ++ "\n" ++ tracking_script) := by
        rw [tracking_spec_append o u hc hs]
      have hto : headOr t = headOr u ++ "\n" ++ tracking_script :=
        headOr_some t _ (by rw [hh, he])
      exact tracking_spec_of_contains o t
        (by rw [hto]; exact pyContains_append_marker (headOr u))

/-! ### The full install pipeline as a total function -/

/-- The store produced by a successful run of before_install then
after_install. -/
def install_spec (o : Oracle) (s : Store) : Store :=
  tracking_spec o (setup_permissions (settings_spec o (create_default_data
    (create_fcrm_property_setters (create_fcrm_custom_fields (create_roles s))))))

theorem check_dependencies_none (s : Store) (h : depsOkB s = true) :
    check_dependencies s = none := by
  unfold depsOkB at h
  rw [Bool.and_eq_true] at h
  simp only [check_dependencies, missing_items]
  rw [if_pos h.1]
  have hfil : required_doctypes.filter (fun dt => !s.doctypes.contains dt) = [] := by
    rw [List.filter_eq_nil_iff]
    intro dt hdt
    have hc := List.all_eq_true.mp h.2 dt hdt
    rw [hc]
    decide
  rw [hfil]
  rfl

theorem before_install_ok (s : Store) (h : check_dependencies s = none) :
    before_install s = Except.ok (create_roles s) := by
  unfold before_install
  rw [h]

theorem run_install_eq_ok (o : Oracle) (s : Store) (h : check_dependencies s = none) :
    run_install o s = Except.ok (install_spec o s) := by
  unfold run_install
  rw [before_install_ok s h]
  show after_install o (create_roles s) = Except.ok (install_spec o s)
  rw [after_install_eq]
  rfl

theorem depsOkB_of_extend (s t : Store)
    (happs : t.installed_apps = s.installed_apps)
    (hdts : t.doctypes = s.doctypes ∨ t.doctypes = s.doctypes ++ ["Internal IP Range"])
    (h : depsOkB s = true) : depsOkB t = true := by
  unfold depsOkB at h ⊢
  rw [Bool.and_eq_true] at h ⊢
  refine ⟨by rw [happs]; exact h.1, ?_⟩
  rw [List.all_eq_true]
  intro dt hdt
  have hc := List.all_eq_true.mp h.2 dt hdt
  rcases hdts with he | he
  · rw [he]; exact hc
  · rw [he, contains_iff_mem]
    exact List.mem_append_left _ (contains_iff_mem.mp hc)

theorem install_spec_apps (o : Oracle) (s : Store) :
    (install_spec o s).installed_apps = s.installed_apps := by
  simp [install_spec]

theorem install_spec_doctypes_or (o : Oracle) (s : Store) :
    (install_spec o s).doctypes = s.doctypes ∨
      (install_spec o s).doctypes = s.doctypes ++ ["Internal IP Range"] := by
  have h1 : (install_spec o s).doctypes = (settings_spec o (create_default_data
      (create_fcrm_property_setters (create_fcrm_custom_fields (create_roles s))))).doctypes := by
    simp [install_spec]
  rw [h1]
  rcases settings_spec_doctypes_or o (create_default_data
      (create_fcrm_property_setters (create_fcrm_custom_fields (create_roles s)))) with h | h <;>
    rw [h] <;> simp

/-- The IIR DocType never owns custom fields in the table. -/
theorem table_keys_ne_iir : ∀ p ∈ custom_fields_table, p.1 ≠ "Internal IP Range" := by
  decide

@[simp] theorem scrub_apps (t : Store) : (scrub t).installed_apps = t.installed_apps := rfl
@[simp] theorem scrub_doctypes (t : Store) : (scrub t).doctypes = t.doctypes := rfl
@[simp] theorem scrub_roles (t : Store) : (scrub t).roles = t.roles := rfl
@[simp] theorem scrub_custom_fields (t : Store) : (scrub t).custom_fields = t.custom_fields := rfl
@[simp] theorem scrub_property_setters (t : Store) : (scrub t).property_setters = t.property_setters := rfl
@[simp] theorem scrub_doc_perms (t : Store) : (scrub t).doc_perms = t.doc_perms := rfl
@[simp] theorem scrub_settings (t : Store) : (scrub t).settings = t.settings := rfl
@[simp] theorem scrub_head_html (t : Store) : (scrub t).head_html = t.head_html := rfl
@[simp] theorem scrub_workspace (t : Store) : (scrub t).workspace_crm = t.workspace_crm := rfl
@[simp] theorem scrub_submittable (t : Store) : (scrub t).submittable = t.submittable := rfl

theorem roles_complete_at (s t : Store) (h : t.roles = (create_roles s).roles) :
    ∀ a ∈ trackflow_roles, hasKey Role.role_name a.role_name t.roles = true := by
  intro a ha
  rw [h, create_roles_roles]
  exact ensureAll_complete Role.role_name id Role.role_name (fun a => rfl) _ _ a ha

theorem ps_complete_at (s t : Store)
    (h : t.property_setters = (create_fcrm_property_setters s).property_setters) :
    ∀ a ∈ property_setters_table,
      hasKey PropertySetter.ps_name a.ps_name t.property_setters = true := by
  intro a ha
  rw [h, ps_stage_property_setters]
  exact ensureAll_complete PropertySetter.ps_name id PropertySetter.ps_name
    (fun a => rfl) _ _ a ha

theorem cf_complete_at (u t : Store)
    (hcf : t.custom_fields = (create_fcrm_custom_fields u).custom_fields)
    (hdt : t.doctypes = u.doctypes ∨ t.doctypes = u.doctypes ++ ["Internal IP Range"]) :
    ∀ p ∈ custom_fields_table, t.doctypes.contains p.1 = true →
      ∀ f ∈ p.2, hasKey CustomField.name (cfKey p.1 f) t.custom_fields = true := by
  intro p hp hc f hf
  have hc' : u.doctypes.contains p.1 = true := by
    rcases hdt with he | he
    · rw [he] at hc; exact hc
    · rw [he] at hc
      rcases contains_append_singleton hc with h | h
      · exact h
      · exact absurd h (table_keys_ne_iir p hp)
  rw [hcf]
  exact processTable_complete custom_fields_table u p hp hc' f hf

theorem perms_complete_at (u t : Store)
    (hdp : t.doc_perms = (setup_permissions u).doc_perms)
    (hdt : t.doctypes = u.doctypes) :
    ∀ dt ∈ possible_doctypes, t.doctypes.contains dt = true →
      hasKey permKey (dt, "TrackFlow Manager") t.doc_perms = true := by
  intro dt hdt' hc
  rw [hdp, perms_stage_doc_perms]
  exact ensureAll_complete (fun dt => (dt, "TrackFlow Manager")) (mkDocPerm u) permKey
    (fun a => rfl) (possible_doctypes.filter (fun dt => u.doctypes.contains dt)) u.doc_perms
    dt (List.mem_filter.mpr ⟨hdt', by rw [← hdt]; exact hc⟩)

/-- A second full install run, against the store a first run produced,
recreates no record: all stages skip (the error log may grow when the same
environment failures repeat), and under the benign oracle the second run is
an exact no-op. -/
theorem install_spec_stable (o : Oracle) (s : Store) :
    scrub (install_spec o (install_spec o s)) = scrub (install_spec o s) ∧
    (o = benign → install_spec o (install_spec o s) = install_spec o s) := by
  have hA : create_roles (install_spec o s) = install_spec o s :=
    create_roles_noop _ (roles_complete_at s _ (by simp [install_spec]))
  have hB : create_fcrm_custom_fields (install_spec o s) = install_spec o s :=
    processTable_noop custom_fields_table _
      (cf_complete_at (create_roles s) _ (by simp [install_spec])
        (install_spec_doctypes_or o s))
  have hC : create_fcrm_property_setters (install_spec o s) = install_spec o s :=
    create_fcrm_property_setters_noop _ (ps_complete_at
      (create_fcrm_custom_fields (create_roles s)) _ (by simp [install_spec]))
  have hsets : scrub (settings_spec o (install_spec o s)) = scrub (install_spec o s) :=
    settings_spec_stable o (create_default_data (create_fcrm_property_setters
      (create_fcrm_custom_fields (create_roles s)))) _
      (by simp [install_spec]) (by simp [install_spec])
  have hdp : (settings_spec o (install_spec o s)).doc_perms =
      (setup_permissions (settings_spec o (create_default_data
        (create_fcrm_property_setters (create_fcrm_custom_fields
          (create_roles s)))))).doc_perms := by
    simp [install_spec]
  have hdtp : (settings_spec o (install_spec o s)).doctypes = (install_spec o s).doctypes := by
    have hq := congrArg Store.doctypes hsets
    simpa using hq
  have hE : setup_permissions (settings_spec o (install_spec o s)) =
      settings_spec o (install_spec o s) := by
    apply setup_permissions_noop
    apply perms_complete_at (settings_spec o (create_default_data
      (create_fcrm_property_setters (create_fcrm_custom_fields (create_roles s))))) _ hdp
    rw [hdtp]
    simp [install_spec]
  have hF : tracking_spec o (settings_spec o (install_spec o s)) =
      settings_spec o (install_spec o s) := by
    apply tracking_spec_stable o (setup_permissions (settings_spec o (create_default_data
      (create_fcrm_property_setters (create_fcrm_custom_fields (create_roles s)))))) _
    have : (settings_spec o (install_spec o s)).head_html = (install_spec o s).head_html :=
      settings_spec_head_html o _
    rw [this]
    rfl
  have hchain : install_spec o (install_spec o s) = settings_spec o (install_spec o s) := by
    show tracking_spec o (setup_permissions (settings_spec o (create_default_data (create_fcrm_property_setters (create_fcrm_custom_fields (create_roles (install_spec o s))))))) = settings_spec o (install_spec o s)
    rw [hA, hB, hC, create_default_data_eq, hE, hF]
  constructor
  · rw [hchain]
    exact hsets
  · intro hb
    subst hb
    have hsome : (install_spec benign s).settings.isSome = true := by
      have h1 : (install_spec benign s).settings = (settings_spec benign
          (create_default_data (create_fcrm_property_setters (create_fcrm_custom_fields
            (create_roles s))))).settings := by
        simp [install_spec]
      rw [h1]
      exact settings_spec_benign_isSome _
    rw [hchain, settings_spec_isSome benign _ hsome]

/-! ### Added-record characterisations for the custom-field and permission
stages -/

theorem hasKey_of_append_false {β κ : Type} [DecidableEq κ] (kr : β → κ) (k : κ)
    (rs ts : List β) (h : hasKey kr k (rs ++ ts) = false) : hasKey kr k rs = false := by
  rw [hasKey_append] at h
  exact (Bool.or_eq_false_iff.mp h).1

/-- The custom-field table walk appends exactly the records of present
owning DocTypes whose name key was absent. -/
theorem processTable_added :
    ∀ (tbl : List (String × List FieldDef)) (s : Store), ∃ added,
      (processTable tbl s).custom_fields = s.custom_fields ++ added ∧
      ∀ c ∈ added, s.doctypes.contains c.dt = true ∧
        hasKey CustomField.name c.name s.custom_fields = false ∧
        ∃ p ∈ tbl, c.dt = p.1 ∧ c.field ∈ p.2 := by
  intro tbl
  induction tbl with
  | nil => intro s; exact ⟨[], by simp [processTable], by simp⟩
  | cons p rest ih =>
    intro s
    show ∃ added, (processTable rest (apply_custom_fields p.1 p.2 s)).custom_fields = _ ∧ _
    by_cases hp : s.doctypes.contains p.1 = true
    · have happ : apply_custom_fields p.1 p.2 s =
          { s with custom_fields := ensureAll (cfKey p.1) (fun f => CustomField.mk p.1 f) CustomField.name p.2 s.custom_fields } := by
        unfold apply_custom_fields
        rw [if_pos hp]
      obtain ⟨a1, he1, hp1⟩ := ensureAll_shape (cfKey p.1) (fun f => CustomField.mk p.1 f)
        CustomField.name p.2 s.custom_fields
      obtain ⟨a2, he2, hp2⟩ := ih (apply_custom_fields p.1 p.2 s)
      refine ⟨a1 ++ a2, ?_, ?_⟩
      · rw [he2, happ]
        show ensureAll (cfKey p.1) (fun f => CustomField.mk p.1 f) CustomField.name p.2 s.custom_fields ++ a2 = s.custom_fields ++ (a1 ++ a2)
        rw [he1, List.append_assoc]
      · intro c hc
        rcases List.mem_append.mp hc with hc | hc
        · obtain ⟨f, hf, hcf, hkey⟩ := hp1 c hc
          subst hcf
          exact ⟨hp, hkey, p, List.mem_cons_self p rest, rfl, hf⟩
        · obtain ⟨hdt, hkey, q, hq, hcd, hcf⟩ := hp2 c hc
          rw [happ] at hdt hkey
          refine ⟨hdt, ?_, q, List.mem_cons_of_mem _ hq, hcd, hcf⟩
          have : hasKey CustomField.name c.name
              (ensureAll (cfKey p.1) (fun f => CustomField.mk p.1 f) CustomField.name p.2 s.custom_fields) = false := hkey
          rw [he1] at this
          exact hasKey_of_append_false _ _ _ _ this
    · have happ : apply_custom_fields p.1 p.2 s = s := by
        unfold apply_custom_fields
        rw [if_neg hp]
      obtain ⟨a2, he2, hp2⟩ := ih (apply_custom_fields p.1 p.2 s)
      refine ⟨a2, ?_, ?_⟩
      · rw [he2, happ]
      · intro c hc
        obtain ⟨hdt, hkey, q, hq, hcd, hcf⟩ := hp2 c hc
        rw [happ] at hdt hkey
        exact ⟨hdt, hkey, q, List.mem_cons_of_mem _ hq, hcd, hcf⟩

/-- The permission stage appends exactly one TrackFlow Manager rule for
each present candidate DocType that lacked one. -/
theorem setup_permissions_added (s : Store) :
    ∃ added, (setup_permissions s).doc_perms = s.doc_perms ++ added ∧
      ∀ q ∈ added, ∃ dt ∈ possible_doctypes, s.doctypes.contains dt = true ∧
        hasKey permKey (dt, "TrackFlow Manager") s.doc_perms = false ∧
        q = mkDocPerm s dt := by
  obtain ⟨added, he, hp⟩ := ensureAll_shape (fun dt => (dt, "TrackFlow Manager"))
    (mkDocPerm s) permKey (possible_doctypes.filter (fun dt => s.doctypes.contains dt))
    s.doc_perms
  refine ⟨added, ?_, ?_⟩
  · rw [perms_stage_doc_perms, he]
  · intro q hq
    obtain ⟨dt, hdt, hqd, hkey⟩ := hp q hq
    have hm := List.mem_filter.mp hdt
    exact ⟨dt, hm.1, hm.2, hkey, hqd⟩

/-! ### The claims -/

/-- C1: for every store in which the host CRM app and the required DocTypes
are present, running the full provisioning pipeline (before_install followed
by after_install) twice in succession produces the same store state as
running it once: both runs succeed, and after scrubbing the diagnostic error
log the stores are equal — so there is no duplicate Role, Custom Field,
Property Setter or DocPerm record, no second settings singleton, no
duplicated tracking-script text and no duplicated workspace link block.
Under the benign oracle (no environment failure) the second run is an exact
no-op, error log included. -/
theorem install_pipeline_idempotent (o : Oracle) (s : Store) (h : depsOkB s = true) :
    ∃ s1 s2, run_install o s = Except.ok s1 ∧ run_install o s1 = Except.ok s2 ∧
      scrub s2 = scrub s1 ∧ (o = benign → s2 = s1) :=
  ⟨install_spec o s, install_spec o (install_spec o s),
    run_install_eq_ok o s (check_dependencies_none s h),
    run_install_eq_ok o _ (check_dependencies_none _ (depsOkB_of_extend s _
      (install_spec_apps o s) (install_spec_doctypes_or o s) h)),
    (install_spec_stable o s).1, (install_spec_stable o s).2⟩

/-- Witness for C1 at a concrete store with the host app and DocTypes
present and the benign oracle. -/
theorem install_pipeline_idempotent_witness :
    depsOkB baseStore = true ∧
    (∃ s1 s2, run_install benign baseStore = Except.ok s1 ∧
      run_install benign s1 = Except.ok s2 ∧ scrub s2 = scrub s1 ∧
      (benign = benign → s2 = s1)) :=
  ⟨by decide, install_pipeline_idempotent benign baseStore (by decide)⟩

/-- Helper for C3: the aggregated message computed by check_dependencies
when something is missing. -/
theorem check_dependencies_msg (s : Store)
    (h : (s.installed_apps.map strLower).contains "crm" = false ∨
      ((s.installed_apps.map strLower).contains "crm" = true ∧
        required_doctypes.filter (fun dt => !s.doctypes.contains dt) ≠ [])) :
    check_dependencies s = some ("TrackFlow requires the following: " ++
      String.intercalate ", "
        (if (s.installed_apps.map strLower).contains "crm" = true
         then (required_doctypes.filter (fun dt => !s.doctypes.contains dt)).map
           (fun dt => "FCRM DocType: " ++ dt)
         else ["Frappe CRM"])) := by
  simp only [check_dependencies, missing_items]
  rcases h with h | ⟨hc, hne⟩
  · rw [if_neg (ne_true_of_eq_false h)]
    rfl
  · rw [if_pos hc]
    have hmap : ((required_doctypes.filter (fun dt => !s.doctypes.contains dt)).map
        (fun dt => "FCRM DocType: " ++ dt)).isEmpty = false := by
      cases hv : ((required_doctypes.filter (fun dt => !s.doctypes.contains dt)).map
          (fun dt => "FCRM DocType: " ++ dt)).isEmpty
      · rfl
      · exact absurd (List.map_eq_nil_iff.mp (List.isEmpty_iff.mp hv)) hne
    rw [if_neg (ne_true_of_eq_false hmap)]

/-- C3: if the host CRM app is absent from the installed-app list
(case-insensitively), or any required FCRM DocType is missing,
before_install aborts with the single aggregated user-facing error listing
all the missing items, and the store it carries is the unchanged input —
zero records are created, create_roles never runs. -/
theorem before_install_aborts (s : Store)
    (h : (s.installed_apps.map strLower).contains "crm" = false ∨
      ((s.installed_apps.map strLower).contains "crm" = true ∧
        required_doctypes.filter (fun dt => !s.doctypes.contains dt) ≠ [])) :
    before_install s = Except.error
      ("TrackFlow requires the following: " ++ String.intercalate ", "
        (if (s.installed_apps.map strLower).contains "crm" = true
         then (required_doctypes.filter (fun dt => !s.doctypes.contains dt)).map
           (fun dt => "FCRM DocType: " ++ dt)
         else ["Frappe CRM"]), s) := by
  unfold before_install
  rw [check_dependencies_msg s h]

/-- Witness for C3 at a store missing two of the three required DocTypes. -/
theorem before_install_aborts_witness :
    before_install { baseStore with doctypes := ["CRM Deal"] } = Except.error
      ("TrackFlow requires the following: " ++ String.intercalate ", "
        (if (({ baseStore with doctypes := ["CRM Deal"] } : Store).installed_apps.map strLower).contains "crm" = true
         then (required_doctypes.filter (fun dt => !({ baseStore with doctypes := ["CRM Deal"] } : Store).doctypes.contains dt)).map
           (fun dt => "FCRM DocType: " ++ dt)
         else ["Frappe CRM"]), { baseStore with doctypes := ["CRM Deal"] }) :=
  before_install_aborts { baseStore with doctypes := ["CRM Deal"] }
    (Or.inr ⟨by decide, by decide⟩)

/-- C4: when the settings singleton is absent and the schema bootstrap fails
(both the reload and the manual insert), ensure_internal_ip_range_doctype
returns its failure indicator false, create_trackflow_settings returns
normally without inserting the singleton, and no exception escapes. -/
theorem settings_skipped_on_bootstrap_failure (o : Oracle) (s : Store)
    (hnone : s.settings = none)
    (hiir : s.doctypes.contains "Internal IP Range" = false)
    (hr : o.reload_fails = true) (hd : o.doctype_insert_fails = true) :
    ∃ u, ensure_internal_ip_range_doctype o s = Except.ok (false, u) ∧
    ∃ t, create_trackflow_settings o s = Except.ok t ∧ t.settings = none := by
  refine ⟨logError ("Error creating Internal IP Range DocType: " ++ "insert error") s,
    ?_, settings_spec o s, create_trackflow_settings_eq_spec o s, ?_⟩
  · rw [ensure_eq_spec, ensure_spec_fail o s hiir hr hd]
  · rw [settings_spec_none_ensure_false o s _ hnone (ensure_spec_fail o s hiir hr hd)]
    exact hnone

/-- Witness for C4 at a concrete store and the all-failing oracle. -/
theorem settings_skipped_on_bootstrap_failure_witness :
    ∃ u, ensure_internal_ip_range_doctype hostileOracle baseStore = Except.ok (false, u) ∧
    ∃ t, create_trackflow_settings hostileOracle baseStore = Except.ok t ∧
      t.settings = none :=
  settings_skipped_on_bootstrap_failure hostileOracle baseStore
    (by decide) (by decide) (by decide) (by decide)

/-- C5: whenever create_trackflow_settings creates the settings singleton,
the created document holds exactly the 4 nested internal_ip_ranges rows
127.0.0.0/8, 10.0.0.0/8, 172.16.0.0/12, 192.168.0.0/16 in that order, with
short_code_length 6, cookie_expires_days 365 and default attribution model
Last Touch. -/
theorem settings_default_payload (o : Oracle) (s t : Store) (st : TrackFlowSettings)
    (hc : create_trackflow_settings o s = Except.ok t)
    (hnone : s.settings = none) (hsome : t.settings = some st) :
    st.internal_ip_ranges.map IPRange.ip_range =
      ["127.0.0.0/8", "10.0.0.0/8", "172.16.0.0/12", "192.168.0.0/16"] ∧
    st.internal_ip_ranges.length = 4 ∧
    st.short_code_length = 6 ∧ st.cookie_expires_days = 365 ∧
    st.default_attribution_model = "Last Touch" := by
  have heq := create_trackflow_settings_eq_spec o s
  rw [hc] at heq
  have ht : t = settings_spec o s := by
    injection heq
  subst ht
  rcases settings_spec_settings_or o s with h | h
  · rw [hnone] at h
    rw [h] at hsome
    exact absurd hsome (by simp)
  · rw [h] at hsome
    have hst : st = default_trackflow_settings := by
      injection hsome with h'
      exact h'.symm
    subst hst
    exact ⟨rfl, rfl, rfl, rfl, rfl⟩

/-- Witness for C5 at a concrete creating run. -/
theorem settings_default_payload_witness :
    (default_trackflow_settings.internal_ip_ranges.map IPRange.ip_range =
      ["127.0.0.0/8", "10.0.0.0/8", "172.16.0.0/12", "192.168.0.0/16"] ∧
    default_trackflow_settings.internal_ip_ranges.length = 4 ∧
    default_trackflow_settings.short_code_length = 6 ∧
    default_trackflow_settings.cookie_expires_days = 365 ∧
    default_trackflow_settings.default_attribution_model = "Last Touch") :=
  settings_default_payload benign baseStore (settings_spec benign baseStore)
    default_trackflow_settings (by decide) (by decide) (by decide)

/-- C10: the name after_migrate is bound twice in the module and the later
binding (modelled here as after_migrate; the earlier one as
after_migrate_first_binding) is the one in effect.  Every after_migrate run
invokes only the schema bootstrap, custom fields, settings, default data
and the workspace patch; it never invokes create_roles,
create_fcrm_property_setters, setup_permissions or enable_tracking, so the
Role, Property Setter and DocPerm records and the head_html field are left
unchanged. -/
theorem after_migrate_frame (o : Oracle) (s t : Store)
    (h : after_migrate o s = Except.ok t) :
    t.roles = s.roles ∧ t.property_setters = s.property_setters ∧
    t.doc_perms = s.doc_perms ∧ t.head_html = s.head_html ∧
    after_migrate_first_binding s = create_fcrm_custom_fields s := by
  have heq := after_migrate_eq o s
  rw [h] at heq
  have ht : t = crm_spec o (create_default_data (settings_spec o
      (create_fcrm_custom_fields (ensure_spec o s).2))) := by
    injection heq
  subst ht
  refine ⟨?_, ?_, ?_, ?_, rfl⟩ <;> simp

/-- Witness for C10 at a concrete migrate run. -/
theorem after_migrate_frame_witness :
    (crm_spec benign (create_default_data (settings_spec benign
      (create_fcrm_custom_fields (ensure_spec benign baseStore).2)))).roles = baseStore.roles ∧
    (crm_spec benign (create_default_data (settings_spec benign
      (create_fcrm_custom_fields (ensure_spec benign baseStore).2)))).property_setters = baseStore.property_setters ∧
    (crm_spec benign (create_default_data (settings_spec benign
      (create_fcrm_custom_fields (ensure_spec benign baseStore).2)))).doc_perms = baseStore.doc_perms ∧
    (crm_spec benign (create_default_data (settings_spec benign
      (create_fcrm_custom_fields (ensure_spec benign baseStore).2)))).head_html = baseStore.head_html ∧
    after_migrate_first_binding baseStore = create_fcrm_custom_fields baseStore :=
  after_migrate_frame benign baseStore _ (after_migrate_eq benign baseStore)

/-- Helper for C2: the head_html produced by a benign install run that
found the marker absent. -/
theorem install_spec_head_benign (s : Store)
    (hco : pyContains tracking_script (headOr s) = false) :
    (install_spec benign s).head_html = some (headOr s ++ "\n" ++ tracking_script) := by
  have hu : (setup_permissions (settings_spec benign (create_default_data (create_fcrm_property_setters (create_fcrm_custom_fields (create_roles s)))))).head_html = s.head_html := by
    simp
  have hho : headOr (setup_permissions (settings_spec benign (create_default_data (create_fcrm_property_setters (create_fcrm_custom_fields (create_roles s)))))) = headOr s :=
    headOr_congr _ _ hu
  show (tracking_spec benign (setup_permissions (settings_spec benign (create_default_data (create_fcrm_property_setters (create_fcrm_custom_fields (create_roles s))))))).head_html = _
  rw [tracking_spec_append benign _ (by rw [hho]; exact hco) rfl]
  show some (headOr (setup_permissions (settings_spec benign (create_default_data (create_fcrm_property_setters (create_fcrm_custom_fields (create_roles s)))))) ++ "\n" ++ tracking_script) = _
  rw [hho]

/-- C2 counterexample: on a store where the host app, the FCRM DocTypes and
the CRM workspace (with an empty link list) are present, a full run through
the install entry points leaves the workspace link list untouched — stage 9
is never executed — although running setup_crm_integration on the resulting
store would append the TrackFlow Analytics block.  The claim that the
install entry points end with stage 9 is therefore false. -/
theorem run_install_omits_workspace_stage :
    (run_install benign baseStore).map (fun t => t.workspace_crm) =
      Except.ok (some ([] : List LinkEntry)) ∧
    ((run_install benign baseStore).bind (setup_crm_integration benign)).map
      (fun t => t.workspace_crm) = Except.ok (some trackflow_links) :=
  ⟨by decide, by decide⟩

/-- C2 amended: a full provisioning run through the install entry points
executes stages 1 to 8 of the pipeline and ends with stage 8, the
tracking-script injection; stage 9 (the workspace-link append) is not
invoked by the install entry points, so every successful run leaves the
workspace links unchanged, while (under the benign oracle, with the marker
initially absent) the head_html field has received the tracking script. -/
theorem run_install_ends_at_stage8 (o : Oracle) (s t : Store)
    (hr : run_install o s = Except.ok t) :
    t.workspace_crm = s.workspace_crm ∧
    (o = benign → pyContains tracking_script (headOr s) = false →
      t.head_html = some (headOr s ++ "\n" ++ tracking_script)) := by
  cases hcd : check_dependencies s with
  | some msg =>
    exfalso
    unfold run_install before_install at hr
    rw [hcd] at hr
    exact absurd hr (by simp)
  | none =>
    have heq := run_install_eq_ok o s hcd
    rw [hr] at heq
    have ht : t = install_spec o s := by injection heq
    subst ht
    refine ⟨by simp [install_spec], ?_⟩
    intro hb hco
    subst hb
    exact install_spec_head_benign s hco

/-- Witness for C2 amended at a concrete successful run. -/
theorem run_install_ends_at_stage8_witness :
    (install_spec benign baseStore).workspace_crm = baseStore.workspace_crm ∧
    (benign = benign → pyContains tracking_script (headOr baseStore) = false →
      (install_spec benign baseStore).head_html =
        some (headOr baseStore ++ "\n" ++ tracking_script)) :=
  run_install_ends_at_stage8 benign baseStore (install_spec benign baseStore)
    (run_install_eq_ok benign baseStore (by decide))

/-- C7: create_fcrm_custom_fields only appends Custom Field records: each
added record belongs to an owning DocType of the table that exists in the
store, carries the name key owning-type dash field-name, and its key was
absent before; every field of every present owning DocType has its key
present afterwards; the DocType registry is untouched.  Absent owning types
contribute nothing (and the function is total, so no error is raised). -/
theorem custom_fields_partial_host (s : Store) :
    ∃ added, (create_fcrm_custom_fields s).custom_fields = s.custom_fields ++ added ∧
      (∀ c ∈ added, s.doctypes.contains c.dt = true ∧
        hasKey CustomField.name c.name s.custom_fields = false ∧
        c.name = c.dt ++ "-" ++ c.field.fieldname ∧
        ∃ fs, (c.dt, fs) ∈ custom_fields_table ∧ c.field ∈ fs) ∧
      (∀ p ∈ custom_fields_table, s.doctypes.contains p.1 = true →
        ∀ f ∈ p.2, hasKey CustomField.name (cfKey p.1 f)
          (create_fcrm_custom_fields s).custom_fields = true) ∧
      (create_fcrm_custom_fields s).doctypes = s.doctypes := by
  obtain ⟨added, he, hp⟩ := processTable_added custom_fields_table s
  refine ⟨added, he, ?_, processTable_complete custom_fields_table s, cf_stage_doctypes s⟩
  intro c hc
  obtain ⟨hdt, hkey, q, hq, hcd, hcf⟩ := hp c hc
  have hpair : (c.dt, q.2) = q := by rw [hcd]
  exact ⟨hdt, hkey, rfl, q.2, hpair ▸ hq, hcf⟩

/-- Witness for C7 at a concrete store holding the three FCRM DocTypes. -/
theorem custom_fields_partial_host_witness :
    ∃ added, (create_fcrm_custom_fields baseStore).custom_fields =
        baseStore.custom_fields ++ added ∧
      (∀ c ∈ added, baseStore.doctypes.contains c.dt = true ∧
        hasKey CustomField.name c.name baseStore.custom_fields = false ∧
        c.name = c.dt ++ "-" ++ c.field.fieldname ∧
        ∃ fs, (c.dt, fs) ∈ custom_fields_table ∧ c.field ∈ fs) ∧
      (∀ p ∈ custom_fields_table, baseStore.doctypes.contains p.1 = true →
        ∀ f ∈ p.2, hasKey CustomField.name (cfKey p.1 f)
          (create_fcrm_custom_fields baseStore).custom_fields = true) ∧
      (create_fcrm_custom_fields baseStore).doctypes = baseStore.doctypes :=
  custom_fields_partial_host baseStore

theorem ite_one_zero_eq_one (b : Bool) : ((if b = true then 1 else 0) = 1) ↔ b = true := by
  cases b <;> simp

/-- C8: setup_permissions appends, for each candidate DocType present in the
store without an existing (type, TrackFlow Manager) rule, one DocPerm with
read, write, create and delete set to 1 and submit and cancel 1 exactly when
the DocType is submittable; every present candidate has a rule afterwards. -/
theorem setup_permissions_rules (s : Store) :
    ∃ added, (setup_permissions s).doc_perms = s.doc_perms ++ added ∧
      (∀ q ∈ added, q.parent ∈ possible_doctypes ∧
        s.doctypes.contains q.parent = true ∧
        q.role = "TrackFlow Manager" ∧
        hasKey permKey (q.parent, "TrackFlow Manager") s.doc_perms = false ∧
        q.read = 1 ∧ q.write = 1 ∧ q.create = 1 ∧ q.delete = 1 ∧
        (q.submit = 1 ↔ s.submittable.contains q.parent = true) ∧
        (q.cancel = 1 ↔ s.submittable.contains q.parent = true)) ∧
      (∀ dt ∈ possible_doctypes, s.doctypes.contains dt = true →
        hasKey permKey (dt, "TrackFlow Manager") (setup_permissions s).doc_perms = true) := by
  obtain ⟨added, he, hp⟩ := setup_permissions_added s
  refine ⟨added, he, ?_, ?_⟩
  · intro q hq
    obtain ⟨dt, hdt, hcon, hkey, hqd⟩ := hp q hq
    subst hqd
    exact ⟨hdt, hcon, rfl, hkey, rfl, rfl, rfl, rfl,
      ite_one_zero_eq_one (s.submittable.contains dt),
      ite_one_zero_eq_one (s.submittable.contains dt)⟩
  · intro dt hdt hc
    exact perms_complete_at s _ rfl (perms_stage_doctypes s) dt hdt
      (by rw [perms_stage_doctypes]; exact hc)

/-- A store for the C8 witness: two candidate DocTypes present, one of them
submittable. -/
def permStore : Store :=
  { baseStore with doctypes := baseStore.doctypes ++ ["Link Campaign", "Click Event"], submittable := ["Click Event"] }

/-- Witness for C8 at a store with two present candidates. -/
theorem setup_permissions_rules_witness :
    ∃ added, (setup_permissions permStore).doc_perms = permStore.doc_perms ++ added ∧
      (∀ q ∈ added, q.parent ∈ possible_doctypes ∧
        permStore.doctypes.contains q.parent = true ∧
        q.role = "TrackFlow Manager" ∧
        hasKey permKey (q.parent, "TrackFlow Manager") permStore.doc_perms = false ∧
        q.read = 1 ∧ q.write = 1 ∧ q.create = 1 ∧ q.delete = 1 ∧
        (q.submit = 1 ↔ permStore.submittable.contains q.parent = true) ∧
        (q.cancel = 1 ↔ permStore.submittable.contains q.parent = true)) ∧
      (∀ dt ∈ possible_doctypes, permStore.doctypes.contains dt = true →
        hasKey permKey (dt, "TrackFlow Manager") (setup_permissions permStore).doc_perms = true) :=
  setup_permissions_rules permStore

/-- C9 counterexample: with the Website Settings save failing on a store
whose head_html lacks the marker, the try-block body of enable_tracking
raises and the stage catches it and returns normally — but it logs nothing:
its except block only prints, there is no frappe.log_error call, so the
error log of the result is the unchanged empty log.  The claim that every
best-effort stage logs the caught exception under the fixed category label
is therefore false for enable_tracking. -/
theorem best_effort_logging_ctrex :
    enable_tracking_body hostileOracle baseStore =
      Except.error ("website settings save error", baseStore) ∧
    enable_tracking hostileOracle baseStore = Except.ok baseStore ∧
    baseStore.error_log = [] :=
  ⟨by decide, by decide, rfl⟩

/-- C9 amended: each best-effort stage — ensure_internal_ip_range_doctype,
create_trackflow_settings, enable_tracking, setup_crm_integration — catches
every exception raised inside it and returns normally for every oracle and
store; when their bodies fail, the schema bootstrap, the settings creation
and the workspace patch log one entry under the fixed category label
TrackFlow Install, while enable_tracking never logs anything. -/
theorem best_effort_stages_no_raise (o : Oracle) (s : Store) :
    (∃ b t, ensure_internal_ip_range_doctype o s = Except.ok (b, t)) ∧
    (∃ t, create_trackflow_settings o s = Except.ok t) ∧
    (∃ t, enable_tracking o s = Except.ok t) ∧
    (∃ t, setup_crm_integration o s = Except.ok t) ∧
    (∀ t, enable_tracking o s = Except.ok t → t.error_log = s.error_log) ∧
    (s.doctypes.contains "Internal IP Range" = false → o.reload_fails = true →
      o.doctype_insert_fails = true →
      ensure_internal_ip_range_doctype o s = Except.ok (false,
        logError ("Error creating Internal IP Range DocType: " ++ "insert error") s)) ∧
    (s.settings = none → s.doctypes.contains "Internal IP Range" = true →
      o.settings_insert_fails = true →
      create_trackflow_settings o s = Except.ok
        (logError ("Error creating TrackFlow Settings: " ++ "settings insert error") s)) ∧
    (∀ ls, s.workspace_crm = some ls →
      ls.any (fun l => decide (l.label = "TrackFlow Analytics")) = false →
      o.workspace_save_fails = true →
      setup_crm_integration o s = Except.ok
        (logError ("Error setting up CRM integration: " ++ "workspace save error") s)) := by
  refine ⟨⟨(ensure_spec o s).1, (ensure_spec o s).2, by rw [ensure_eq_spec]⟩,
    ⟨settings_spec o s, create_trackflow_settings_eq_spec o s⟩,
    ⟨tracking_spec o s, enable_tracking_eq_spec o s⟩,
    ⟨crm_spec o s, setup_crm_integration_eq_spec o s⟩, ?_, ?_, ?_, ?_⟩
  · intro t ht
    have heq := enable_tracking_eq_spec o s
    rw [ht] at heq
    have : t = tracking_spec o s := by injection heq
    subst this
    exact tracking_spec_error_log o s
  · intro hc hr hd
    rw [ensure_eq_spec, ensure_spec_fail o s hc hr hd]
  · intro hnone hc hins
    rw [create_trackflow_settings_eq_spec,
      settings_spec_none_ensure_true_fail o s s hnone (ensure_spec_contains o s hc) hins]
  · intro ls hw hna hwf
    rw [setup_crm_integration_eq_spec, crm_spec_some_save_fail o s ls hw hna hwf]

/-- Witness for C9 amended at the all-failing oracle and a concrete store:
no stage raises, and the ensure stage logs under TrackFlow Install. -/
theorem best_effort_stages_no_raise_witness :
    (∃ b t, ensure_internal_ip_range_doctype hostileOracle baseStore = Except.ok (b, t)) ∧
    ensure_internal_ip_range_doctype hostileOracle baseStore = Except.ok (false,
      logError ("Error creating Internal IP Range DocType: " ++ "insert error") baseStore) ∧
    setup_crm_integration hostileOracle baseStore = Except.ok
      (logError ("Error setting up CRM integration: " ++ "workspace save error") baseStore) :=
  ⟨(best_effort_stages_no_raise hostileOracle baseStore).1,
   (best_effort_stages_no_raise hostileOracle baseStore).2.2.2.2.2.1
     (by decide) (by decide) (by decide),
   (best_effort_stages_no_raise hostileOracle baseStore).2.2.2.2.2.2.2
     [] (by decide) (by decide) (by decide)⟩

/-- A store whose head_html already holds the marker script twice. -/
def dupStore : Store := { baseStore with head_html := some (tracking_script ++ tracking_script) }

/-- C6 counterexample: the claim quantifies over every initial store state,
but on a store whose head_html already contains the marker twice both calls
of enable_tracking are no-ops (the substring guard holds), leaving two
occurrences of the marker, not exactly one. -/
theorem injection_guard_ctrex :
    (enable_tracking benign dupStore).bind (enable_tracking benign) = Except.ok dupStore ∧
    countOccsS tracking_script (headOr dupStore) = 2 :=
  ⟨by decide, by decide⟩

/-- C6 amended: provided the marker script is not already a substring of
head_html, the save succeeds, and the CRM workspace exists with no link yet
labelled TrackFlow Analytics: calling enable_tracking twice leaves exactly
one occurrence of the marker script in head_html, and calling
setup_crm_integration twice leaves exactly one TrackFlow Analytics entry,
positioned so that exactly the 3 Link entries follow it (the second call of
each is a no-op on its field). -/
theorem injection_guards_amended (o : Oracle) (s : Store) (ls : List LinkEntry)
    (hco : pyContains tracking_script (headOr s) = false)
    (hws : o.website_save_fails = false)
    (hwf : o.workspace_save_fails = false)
    (hl : s.workspace_crm = some ls)
    (hna : ls.any (fun l => decide (l.label = "TrackFlow Analytics")) = false) :
    (∃ t, (enable_tracking o s).bind (enable_tracking o) = Except.ok t ∧
      countOccsS tracking_script (headOr t) = 1) ∧
    (∃ w, (setup_crm_integration o s).bind (setup_crm_integration o) = Except.ok w ∧
      w.workspace_crm = some (ls ++ trackflow_links) ∧
      ((ls ++ trackflow_links).filter
        (fun l => decide (l.label = "TrackFlow Analytics"))).length = 1 ∧
      (ls ++ trackflow_links).dropWhile
        (fun l => !(decide (l.label = "TrackFlow Analytics"))) = trackflow_links ∧
      trackflow_links.tail.length = 3 ∧
      trackflow_links.tail.all (fun l => decide (l.type = "Link")) = true) := by
  constructor
  · refine ⟨tracking_spec o s, ?_, ?_⟩
    · rw [enable_tracking_eq_spec]
      show enable_tracking o (tracking_spec o s) = Except.ok (tracking_spec o s)
      rw [enable_tracking_eq_spec, tracking_spec_stable o s (tracking_spec o s) rfl]
    · rw [tracking_spec_append o s hco hws,
        headOr_some { s with head_html := some (headOr s ++ "\n" ++ tracking_script) } _ rfl]
      exact countOccsS_append_marker (headOr s) hco
  · have hany : (ls ++ trackflow_links).any
        (fun l => decide (l.label = "TrackFlow Analytics")) = true := by
      rw [List.any_append, hna]
      decide
    refine ⟨{ s with workspace_crm := some (ls ++ trackflow_links) }, ?_, rfl, ?_, ?_, by decide, by decide⟩
    · rw [setup_crm_integration_eq_spec, crm_spec_some_append o s ls hl hna hwf]
      show setup_crm_integration o { s with workspace_crm := some (ls ++ trackflow_links) } = _
      rw [setup_crm_integration_eq_spec,
        crm_spec_some_present o _ (ls ++ trackflow_links) rfl hany]
    · rw [List.filter_append]
      have h1 : ls.filter (fun l => decide (l.label = "TrackFlow Analytics")) = [] := by
        rw [List.filter_eq_nil_iff]
        exact List.any_eq_false.mp hna
      rw [h1]
      decide
    · rw [List.dropWhile_append]
      have h2 : ls.dropWhile (fun l => !(decide (l.label = "TrackFlow Analytics"))) = [] := by
        rw [List.dropWhile_eq_nil_iff]
        intro x hx
        have hd := List.any_eq_false.mp hna x hx
        have hd' : decide (x.label = "TrackFlow Analytics") = false := by
          cases hv : decide (x.label = "TrackFlow Analytics")
          · rfl
          · exact absurd hv hd
        rw [hd']
        rfl
      rw [h2]
      decide

/-- Witness for C6 amended at a concrete store with empty head_html and an
empty CRM workspace link list. -/
theorem injection_guards_amended_witness :
    ((∃ t, (enable_tracking benign baseStore).bind (enable_tracking benign) = Except.ok t ∧
      countOccsS tracking_script (headOr t) = 1) ∧
    (∃ w, (setup_crm_integration benign baseStore).bind (setup_crm_integration benign) =
        Except.ok w ∧
      w.workspace_crm = some (([] : List LinkEntry) ++ trackflow_links) ∧
      ((([] : List LinkEntry) ++ trackflow_links).filter
        (fun l => decide (l.label = "TrackFlow Analytics"))).length = 1 ∧
      (([] : List LinkEntry) ++ trackflow_links).dropWhile
        (fun l => !(decide (l.label = "TrackFlow Analytics"))) = trackflow_links ∧
      trackflow_links.tail.length = 3 ∧
      trackflow_links.tail.all (fun l => decide (l.type = "Link")) = true)) :=
  injection_guards_amended benign baseStore []
    (by decide) (by decide) (by decide) (by decide) (by decide)

end TrackFlow
